import Mathlib

set_option maxRecDepth 100000

/-!
Shallow embedding of `src/js/curve.js` (curve25519 X-coordinate operations).

JavaScript `BigInt` values are modelled as `Int`.  The module `field.js` is
not part of the sources; its three operations (`reduce`, `square`,
`inverseOf`) are modelled from the spec's contract (§4.1/§6): `reduce` maps
an arbitrary integer to its canonical representative in `[0, p)` for
`p = 2^255 - 19`, `square v` is `reduce (v * v)`, and `inverseOf` returns the
modular multiplicative inverse and fails (modelled by `Option`) when its
argument is `0 mod p`.  Scalars consumed bit-by-bit are modelled as `Nat`
(the claims only concern non-negative scalars, and `(n >> t) & 1n` on a
non-negative JS BigInt agrees with the `Nat` shift/mask).
-/

namespace Curve

namespace field

/-- Modelled from the spec: the field prime `p = 2^255 - 19` owned by the
field-arithmetic collaborator (spec §6). -/
def p : Nat := 2 ^ 255 - 19

/-- Modelled from the spec: `reduce` maps an arbitrary (possibly negative)
integer to its canonical representative in `[0, p)` (spec §4.1).  `Int.emod`
with a positive modulus lands in `[0, p)`. -/
def reduce (v : Int) : Int := v % (p : Int)

/-- Modelled from the spec: `square v` is equivalent to `reduce (v * v)`
(spec §4.1). -/
def square (v : Int) : Int := reduce (v * v)

/-- Fuel-driven modular exponentiation by repeated squaring, used to realise
the modular inverse; the fuel bounds the bit-length of the exponent. -/
def powModAux : Nat → Nat → Nat → Nat → Nat
  | 0, _, _, m => 1 % m
  | fuel + 1, b, e, m =>
    if e = 0 then 1 % m
    else
      let r := powModAux fuel (b * b % m) (e / 2) m
      if e % 2 = 1 then r * b % m else r

/-- Modular exponentiation `b ^ e % m` for exponents below `2 ^ 256`. -/
def powMod (b e m : Nat) : Nat := powModAux 256 b e m

/-- Modelled from the spec: `inverseOf` returns the modular multiplicative
inverse of `v` mod `p` and fails when `v ≡ 0 (mod p)` (spec §4.1); the
failure is modelled by `Option`.  The inverse is realised by Fermat
exponentiation `v ^ (p - 2) mod p`. -/
def inverseOf (v : Int) : Option Int :=
  if v % (p : Int) = 0 then none
  else some ((powMod (v % (p : Int)).toNat (p - 2) p : Nat) : Int)

end field

/-- Curve coefficient `A` of curve25519 (`curve.js` line 16). -/
def curveA : Int := 486662

/-- Affine X-coordinate of the base point (`curve.js` line 17). -/
def basePointX : Int := 9

/-- Affine recovery `X = x / z` (`curve.js` lines 25-27); the inversion
failure on `z ≡ 0 (mod p)` propagates to the caller. -/
def X (x z : Int) : Option Int :=
  (field.inverseOf z).map fun w => field.reduce (x * w)

/-- Constant `(A + 2) / 4` used by `pointDouble` (`curve.js` line 29). -/
def doubleA24 : Int := (curveA + 2) / 4

/-- Result ratio pair `{x, z}` returned by the point operations. -/
structure RatioPair where
  x : Int
  z : Int
deriving DecidableEq

/-- Point doubling (`curve.js` lines 40-50). -/
def pointDouble (x z : Int) : RatioPair :=
  let x2_1 := (x + z) * (x + z)
  let x2_2 := (x - z) * (x - z)
  let x2 := field.reduce (x2_1 * x2_2)
  let z2_1 := field.reduce (4 * x * z)
  let z2_2 := field.reduce (x - z) * field.reduce (x - z)
  let z2_3 := doubleA24 * z2_1
  let z2_23 := z2_2 + z2_3
  let z2 := z2_1 * z2_23
  { x := field.reduce x2, z := field.reduce z2 }

/-- Differential addition against the fixed base point
(`curve.js` lines 64-75). -/
def pointAdd1 (x z prevX prevZ : Int) : RatioPair :=
  let baseX := basePointX
  let baseZ : Int := 1
  let xa := field.reduce (x - z) * (baseX + baseZ)
  let xb := field.reduce ((x + z) * (baseX - baseZ))
  let xc := field.reduce (field.square (xa + xb))
  let x_nplus1 := prevZ * xc
  let zc := field.reduce (field.square (xa - xb))
  let z_nplus1 := prevX * zc
  { x := field.reduce x_nplus1, z := field.reduce z_nplus1 }

/-- Conditional swap (`curve.js` lines 88-90). -/
def cswap (swap : Bool) (a b : Int) : Int × Int :=
  if swap then (b, a) else (a, b)

/-- Constant `(A - 2) / 4` used inside the ladder (`curve.js` line 93). -/
def multA24 : Int := (curveA - 2) / 4

/-- Accumulator state of the Montgomery ladder: the two running points and
the swap flag carried between iterations (`curve.js` lines 105-110). -/
structure LadderState where
  x_2 : Int
  z_2 : Int
  x_3 : Int
  z_3 : Int
  swap : Bool
deriving DecidableEq

/-- Combined double-and-add step of one ladder iteration, producing the new
`(x_2, z_2, x_3, z_3)` (`curve.js` lines 119-131). -/
def ladderStep (x_1 x_2 z_2 x_3 z_3 : Int) : Int × Int × Int × Int :=
  let A := x_2 + z_2
  let AA := A * A
  let B := x_2 - z_2
  let BB := B * B
  let E := AA - BB
  let C := x_3 + z_3
  let D := x_3 - z_3
  let DA := D * A
  let CB := C * B
  (field.reduce (AA * BB),
   field.reduce (E * (AA + multA24 * E)),
   field.reduce ((DA + CB) * (DA + CB)),
   field.reduce (x_1 * (DA - CB) * (DA - CB)))

/-- One full iteration of the ladder loop body for bit index `t`
(`curve.js` lines 113-131): XOR-accumulate the swap flag with bit `k_t`,
conditionally swap with the running flag, reset the flag to `k_t`, then
perform the combined step. -/
def ladderIter (x_1 : Int) (n t : Nat) (s : LadderState) : LadderState :=
  let k_t := (n >>> t) &&& 1
  let swap1 := Bool.xor s.swap (k_t != 0)
  let xs := cswap swap1 s.x_2 s.x_3
  let zs := cswap swap1 s.z_2 s.z_3
  let r := ladderStep x_1 xs.1 zs.1 xs.2 zs.2
  { x_2 := r.1, z_2 := r.2.1, x_3 := r.2.2.1, z_3 := r.2.2.2,
    swap := k_t != 0 }

/-- The ladder loop (`curve.js` line 112): process bit indices `t`,
`t - 1`, ..., `0`, highest first. -/
def pointMultAux (x_1 : Int) (n : Nat) : Nat → LadderState → LadderState
  | 0, s => ladderIter x_1 n 0 s
  | t + 1, s => pointMultAux x_1 n t (ladderIter x_1 n (t + 1) s)

/-- Initial ladder state (`curve.js` lines 105-110). -/
def ladderInit (X0 : Int) : LadderState :=
  { x_2 := 1, z_2 := 0, x_3 := X0, z_3 := 1, swap := false }

/-- Scalar multiplication by the Montgomery ladder
(`curve.js` lines 104-137): run the loop from bit 255 down to bit 0, then
final-swap and return `(x_2, z_2)`. -/
def pointMult (X0 : Int) (n : Nat) : RatioPair :=
  let s := pointMultAux X0 n 255 (ladderInit X0)
  let xs := cswap s.swap s.x_2 s.x_3
  let zs := cswap s.swap s.z_2 s.z_3
  { x := xs.1, z := zs.1 }

/-- Instrumented ladder loop that additionally counts how many combined-step
iterations execute; its state component mirrors `pointMultAux`. -/
def pointMultAuxCount (x_1 : Int) (n : Nat) :
    Nat → LadderState × Nat → LadderState × Nat
  | 0, sc => (ladderIter x_1 n 0 sc.1, sc.2 + 1)
  | t + 1, sc => pointMultAuxCount x_1 n t (ladderIter x_1 n (t + 1) sc.1, sc.2 + 1)

/-- Number of combined-step iterations executed by the ladder loop of
`pointMult X0 n`. -/
def pointMultIterCount (X0 : Int) (n : Nat) : Nat :=
  (pointMultAuxCount X0 n 255 (ladderInit X0, 0)).2

/-- Partial run of the ladder loop: apply `k` iterations starting at bit
index `hi` and counting down.  `pointMultAux x1 n t` coincides with
`runBits x1 n t (t + 1)`; splitting a run into chunks keeps concrete
evaluations shallow. -/
def runBits (x_1 : Int) (n : Nat) (hi : Nat) : Nat → LadderState → LadderState
  | 0, s => s
  | k + 1, s => runBits x_1 n (hi - 1) k (ladderIter x_1 n hi s)

end Curve

namespace Curve

theorem runBits_add (x_1 : Int) (n : Nat) :
    ∀ (k₁ : Nat) (k₂ hi : Nat) (s : LadderState),
      runBits x_1 n hi (k₁ + k₂) s =
        runBits x_1 n (hi - k₁) k₂ (runBits x_1 n hi k₁ s) := by
  intro k₁
  induction k₁ with
  | zero => intro k₂ hi s; simp [runBits]
  | succ k ih =>
    intro k₂ hi s
    have h : k + 1 + k₂ = (k + k₂) + 1 := by omega
    rw [h]
    show runBits x_1 n (hi - 1) (k + k₂) (ladderIter x_1 n hi s) = _
    rw [ih k₂ (hi - 1) (ladderIter x_1 n hi s)]
    have h2 : hi - 1 - k = hi - (k + 1) := by omega
    rw [h2]
    rfl

theorem pointMultAux_eq_runBits (x_1 : Int) (n : Nat) :
    ∀ (t : Nat) (s : LadderState),
      pointMultAux x_1 n t s = runBits x_1 n t (t + 1) s := by
  intro t
  induction t with
  | zero => intro s; rfl
  | succ t ih =>
    intro s
    show pointMultAux x_1 n t _ = runBits x_1 n t (t + 1) _
    exact ih (ladderIter x_1 n (t + 1) s)

theorem powModAux_eq (f : Nat) :
    ∀ (b e m : Nat), e < 2 ^ f → field.powModAux f b e m = b ^ e % m := by
  induction f with
  | zero =>
    intro b e m he
    have h0 : e = 0 := by simpa using he
    subst h0
    simp [field.powModAux]
  | succ f ih =>
    intro b e m he
    by_cases h0 : e = 0
    · subst h0; simp [field.powModAux]
    · have h2f : e < 2 ^ f * 2 := by
        have : (2 : Nat) ^ (f + 1) = 2 ^ f * 2 := pow_succ 2 f
        omega
      have he2 : e / 2 < 2 ^ f := by omega
      have hsq : (b * b) ^ (e / 2) = b ^ (2 * (e / 2)) := by
        rw [← pow_two, ← pow_mul]
      simp only [field.powModAux, if_neg h0]
      rw [ih (b * b % m) (e / 2) m he2]
      rw [← Nat.pow_mod]
      by_cases hp : e % 2 = 1
      · simp only [if_pos hp]
        rw [Nat.mod_mul_mod]
        congr 1
        have heq : e = 2 * (e / 2) + 1 := by omega
        rw [hsq]
        conv_rhs => rw [heq]
        rw [pow_succ]
      · simp only [if_neg hp]
        congr 1
        have heq : e = 2 * (e / 2) := by omega
        rw [hsq]
        conv_rhs => rw [heq]

theorem powMod_eq (b e m : Nat) (he : e < 2 ^ 256) :
    field.powMod b e m = b ^ e % m :=
  powModAux_eq 256 b e m he

theorem powModAux_lt (f : Nat) :
    ∀ (b e m : Nat), 0 < m → field.powModAux f b e m < m := by
  induction f with
  | zero => intro b e m hm; exact Nat.mod_lt _ hm
  | succ f ih =>
    intro b e m hm
    simp only [field.powModAux]
    by_cases h0 : e = 0
    · simp only [if_pos h0]; exact Nat.mod_lt _ hm
    · simp only [if_neg h0]
      by_cases hp : e % 2 = 1
      · simp only [if_pos hp]; exact Nat.mod_lt _ hm
      · simp only [if_neg hp]; exact ih _ _ _ hm

theorem powMod_lt (b e m : Nat) (hm : 0 < m) : field.powMod b e m < m :=
  powModAux_lt 256 b e m hm

theorem natCast_powMod (n a e : Nat) (he : e < 2 ^ 256) :
    ((field.powMod a e n : Nat) : ZMod n) = (a : ZMod n) ^ e := by
  rw [powMod_eq a e n he, ZMod.natCast_mod, Nat.cast_pow]

theorem pratt_step (n a : Nat) (l : List Nat) (hn : 2 ≤ n) (hsz : n ≤ 2 ^ 256)
    (hl : ∀ q ∈ l, Nat.Prime q) (hprod : l.prod = n - 1)
    (ha : field.powMod a (n - 1) n = 1)
    (hd : ∀ q ∈ l, field.powMod a ((n - 1) / q) n ≠ 1) : Nat.Prime n := by
  haveI : NeZero n := ⟨by omega⟩
  have he : n - 1 < 2 ^ 256 := by omega
  refine lucas_primality n (a : Nat) ?_ ?_
  · rw [← natCast_powMod n a (n - 1) he, ha, Nat.cast_one]
  · intro q hq hdvd
    have hql : q ∈ l := by
      have hqp : q ∣ l.prod := hprod ▸ hdvd
      obtain ⟨x, hx, hqx⟩ := (hq.prime.dvd_prod_iff).mp hqp
      have hxq : q = x := (Nat.prime_dvd_prime_iff_eq hq (hl x hx)).mp hqx
      exact hxq ▸ hx
    intro hcontra
    apply hd q hql
    have he' : (n - 1) / q < 2 ^ 256 :=
      lt_of_le_of_lt (Nat.div_le_self _ _) he
    have hcast : ((field.powMod a ((n - 1) / q) n : Nat) : ZMod n) = 1 := by
      rw [natCast_powMod n a _ he']
      exact hcontra
    have hlt : field.powMod a ((n - 1) / q) n < n := powMod_lt _ _ _ (by omega)
    have h1 : (1 : ZMod n) = ((1 : Nat) : ZMod n) := by rw [Nat.cast_one]
    rw [h1] at hcast
    have hval := congrArg ZMod.val hcast
    rw [ZMod.val_natCast, ZMod.val_natCast] at hval
    have := Nat.mod_eq_of_lt hlt
    have h1n : 1 % n = 1 := Nat.mod_eq_of_lt (by omega)
    omega

/-- Base of the primality certificate chain. -/
theorem prime_2 : Nat.Prime 2 := Nat.prime_two

/-- Pratt certificate step: primality of 3. -/
theorem prime_3 : Nat.Prime 3 := by
  refine pratt_step 3 2 [2] (by decide) (by decide) ?_ (by decide) (by decide) (by decide)
  intro q hq
  simp only [List.mem_cons, List.not_mem_nil, or_false] at hq
  rcases hq with rfl
  exacts [prime_2]

/-- Pratt certificate step: primality of 5. -/
theorem prime_5 : Nat.Prime 5 := by
  refine pratt_step 5 2 [2, 2] (by decide) (by decide) ?_ (by decide) (by decide) (by decide)
  intro q hq
  simp only [List.mem_cons, List.not_mem_nil, or_false] at hq
  rcases hq with rfl | rfl
  exacts [prime_2, prime_2]

/-- Pratt certificate step: primality of 7. -/
theorem prime_7 : Nat.Prime 7 := by
  refine pratt_step 7 3 [2, 3] (by decide) (by decide) ?_ (by decide) (by decide) (by decide)
  intro q hq
  simp only [List.mem_cons, List.not_mem_nil, or_false] at hq
  rcases hq with rfl | rfl
  exacts [prime_2, prime_3]

/-- Pratt certificate step: primality of 11. -/
theorem prime_11 : Nat.Prime 11 := by
  refine pratt_step 11 2 [2, 5] (by decide) (by decide) ?_ (by decide) (by decide) (by decide)
  intro q hq
  simp only [List.mem_cons, List.not_mem_nil, or_false] at hq
  rcases hq with rfl | rfl
  exacts [prime_2, prime_5]

/-- Pratt certificate step: primality of 13. -/
theorem prime_13 : Nat.Prime 13 := by
  refine pratt_step 13 2 [2, 2, 3] (by decide) (by decide) ?_ (by decide) (by decide) (by decide)
  intro q hq
  simp only [List.mem_cons, List.not_mem_nil, or_false] at hq
  rcases hq with rfl | rfl | rfl
  exacts [prime_2, prime_2, prime_3]

/-- Pratt certificate step: primality of 17. -/
theorem prime_17 : Nat.Prime 17 := by
  refine pratt_step 17 3 [2, 2, 2, 2] (by decide) (by decide) ?_ (by decide) (by decide) (by decide)
  intro q hq
  simp only [List.mem_cons, List.not_mem_nil, or_false] at hq
  rcases hq with rfl | rfl | rfl | rfl
  exacts [prime_2, prime_2, prime_2, prime_2]

/-- Pratt certificate step: primality of 19. -/
theorem prime_19 : Nat.Prime 19 := by
  refine pratt_step 19 2 [2, 3, 3] (by decide) (by decide) ?_ (by decide) (by decide) (by decide)
  intro q hq
  simp only [List.mem_cons, List.not_mem_nil, or_false] at hq
  rcases hq with rfl | rfl | rfl
  exacts [prime_2, prime_3, prime_3]

/-- Pratt certificate step: primality of 23. -/
theorem prime_23 : Nat.Prime 23 := by
  refine pratt_step 23 5 [2, 11] (by decide) (by decide) ?_ (by decide) (by decide) (by decide)
  intro q hq
  simp only [List.mem_cons, List.not_mem_nil, or_false] at hq
  rcases hq with rfl | rfl
  exacts [prime_2, prime_11]

/-- Pratt certificate step: primality of 29. -/
theorem prime_29 : Nat.Prime 29 := by
  refine pratt_step 29 2 [2, 2, 7] (by decide) (by decide) ?_ (by decide) (by decide) (by decide)
  intro q hq
  simp only [List.mem_cons, List.not_mem_nil, or_false] at hq
  rcases hq with rfl | rfl | rfl
  exacts [prime_2, prime_2, prime_7]

/-- Pratt certificate step: primality of 31. -/
theorem prime_31 : Nat.Prime 31 := by
  refine pratt_step 31 3 [2, 3, 5] (by decide) (by decide) ?_ (by decide) (by decide) (by decide)
  intro q hq
  simp only [List.mem_cons, List.not_mem_nil, or_false] at hq
  rcases hq with rfl | rfl | rfl
  exacts [prime_2, prime_3, prime_5]

/-- Pratt certificate step: primality of 37. -/
theorem prime_37 : Nat.Prime 37 := by
  refine pratt_step 37 2 [2, 2, 3, 3] (by decide) (by decide) ?_ (by decide) (by decide) (by decide)
  intro q hq
  simp only [List.mem_cons, List.not_mem_nil, or_false] at hq
  rcases hq with rfl | rfl | rfl | rfl
  exacts [prime_2, prime_2, prime_3, prime_3]

/-- Pratt certificate step: primality of 41. -/
theorem prime_41 : Nat.Prime 41 := by
  refine pratt_step 41 6 [2, 2, 2, 5] (by decide) (by decide) ?_ (by decide) (by decide) (by decide)
  intro q hq
  simp only [List.mem_cons, List.not_mem_nil, or_false] at hq
  rcases hq with rfl | rfl | rfl | rfl
  exacts [prime_2, prime_2, prime_2, prime_5]

/-- Pratt certificate step: primality of 43. -/
theorem prime_43 : Nat.Prime 43 := by
  refine pratt_step 43 3 [2, 3, 7] (by decide) (by decide) ?_ (by decide) (by decide) (by decide)
  intro q hq
  simp only [List.mem_cons, List.not_mem_nil, or_false] at hq
  rcases hq with rfl | rfl | rfl
  exacts [prime_2, prime_3, prime_7]

/-- Pratt certificate step: primality of 47. -/
theorem prime_47 : Nat.Prime 47 := by
  refine pratt_step 47 5 [2, 23] (by decide) (by decide) ?_ (by decide) (by decide) (by decide)
  intro q hq
  simp only [List.mem_cons, List.not_mem_nil, or_false] at hq
  rcases hq with rfl | rfl
  exacts [prime_2, prime_23]

/-- Pratt certificate step: primality of 53. -/
theorem prime_53 : Nat.Prime 53 := by
  refine pratt_step 53 2 [2, 2, 13] (by decide) (by decide) ?_ (by decide) (by decide) (by decide)
  intro q hq
  simp only [List.mem_cons, List.not_mem_nil, or_false] at hq
  rcases hq with rfl | rfl | rfl
  exacts [prime_2, prime_2, prime_13]

/-- Pratt certificate step: primality of 59. -/
theorem prime_59 : Nat.Prime 59 := by
  refine pratt_step 59 2 [2, 29] (by decide) (by decide) ?_ (by decide) (by decide) (by decide)
  intro q hq
  simp only [List.mem_cons, List.not_mem_nil, or_false] at hq
  rcases hq with rfl | rfl
  exacts [prime_2, prime_29]

/-- Pratt certificate step: primality of 83. -/
theorem prime_83 : Nat.Prime 83 := by
  refine pratt_step 83 2 [2, 41] (by decide) (by decide) ?_ (by decide) (by decide) (by decide)
  intro q hq
  simp only [List.mem_cons, List.not_mem_nil, or_false] at hq
  rcases hq with rfl | rfl
  exacts [prime_2, prime_41]

/-- Pratt certificate step: primality of 97. -/
theorem prime_97 : Nat.Prime 97 := by
  refine pratt_step 97 5 [2, 2, 2, 2, 2, 3] (by decide) (by decide) ?_ (by decide) (by decide) (by decide)
  intro q hq
  simp only [List.mem_cons, List.not_mem_nil, or_false] at hq
  rcases hq with rfl | rfl | rfl | rfl | rfl | rfl
  exacts [prime_2, prime_2, prime_2, prime_2, prime_2, prime_3]

/-- Pratt certificate step: primality of 103. -/
theorem prime_103 : Nat.Prime 103 := by
  refine pratt_step 103 5 [2, 3, 17] (by decide) (by decide) ?_ (by decide) (by decide) (by decide)
  intro q hq
  simp only [List.mem_cons, List.not_mem_nil, or_false] at hq
  rcases hq with rfl | rfl | rfl
  exacts [prime_2, prime_3, prime_17]

/-- Pratt certificate step: primality of 107. -/
theorem prime_107 : Nat.Prime 107 := by
  refine pratt_step 107 2 [2, 53] (by decide) (by decide) ?_ (by decide) (by decide) (by decide)
  intro q hq
  simp only [List.mem_cons, List.not_mem_nil, or_false] at hq
  rcases hq with rfl | rfl
  exacts [prime_2, prime_53]

/-- Pratt certificate step: primality of 127. -/
theorem prime_127 : Nat.Prime 127 := by
  refine pratt_step 127 3 [2, 3, 3, 7] (by decide) (by decide) ?_ (by decide) (by decide) (by decide)
  intro q hq
  simp only [List.mem_cons, List.not_mem_nil, or_false] at hq
  rcases hq with rfl | rfl | rfl | rfl
  exacts [prime_2, prime_3, prime_3, prime_7]

/-- Pratt certificate step: primality of 131. -/
theorem prime_131 : Nat.Prime 131 := by
  refine pratt_step 131 2 [2, 5, 13] (by decide) (by decide) ?_ (by decide) (by decide) (by decide)
  intro q hq
  simp only [List.mem_cons, List.not_mem_nil, or_false] at hq
  rcases hq with rfl | rfl | rfl
  exacts [prime_2, prime_5, prime_13]

/-- Pratt certificate step: primality of 173. -/
theorem prime_173 : Nat.Prime 173 := by
  refine pratt_step 173 2 [2, 2, 43] (by decide) (by decide) ?_ (by decide) (by decide) (by decide)
  intro q hq
  simp only [List.mem_cons, List.not_mem_nil, or_false] at hq
  rcases hq with rfl | rfl | rfl
  exacts [prime_2, prime_2, prime_43]

/-- Pratt certificate step: primality of 223. -/
theorem prime_223 : Nat.Prime 223 := by
  refine pratt_step 223 3 [2, 3, 37] (by decide) (by decide) ?_ (by decide) (by decide) (by decide)
  intro q hq
  simp only [List.mem_cons, List.not_mem_nil, or_false] at hq
  rcases hq with rfl | rfl | rfl
  exacts [prime_2, prime_3, prime_37]

/-- Pratt certificate step: primality of 239. -/
theorem prime_239 : Nat.Prime 239 := by
  refine pratt_step 239 7 [2, 7, 17] (by decide) (by decide) ?_ (by decide) (by decide) (by decide)
  intro q hq
  simp only [List.mem_cons, List.not_mem_nil, or_false] at hq
  rcases hq with rfl | rfl | rfl
  exacts [prime_2, prime_7, prime_17]

/-- Pratt certificate step: primality of 353. -/
theorem prime_353 : Nat.Prime 353 := by
  refine pratt_step 353 3 [2, 2, 2, 2, 2, 11] (by decide) (by decide) ?_ (by decide) (by decide) (by decide)
  intro q hq
  simp only [List.mem_cons, List.not_mem_nil, or_false] at hq
  rcases hq with rfl | rfl | rfl | rfl | rfl | rfl
  exacts [prime_2, prime_2, prime_2, prime_2, prime_2, prime_11]

/-- Pratt certificate step: primality of 419. -/
theorem prime_419 : Nat.Prime 419 := by
  refine pratt_step 419 2 [2, 11, 19] (by decide) (by decide) ?_ (by decide) (by decide) (by decide)
  intro q hq
  simp only [List.mem_cons, List.not_mem_nil, or_false] at hq
  rcases hq with rfl | rfl | rfl
  exacts [prime_2, prime_11, prime_19]

/-- Pratt certificate step: primality of 479. -/
theorem prime_479 : Nat.Prime 479 := by
  refine pratt_step 479 13 [2, 239] (by decide) (by decide) ?_ (by decide) (by decide) (by decide)
  intro q hq
  simp only [List.mem_cons, List.not_mem_nil, or_false] at hq
  rcases hq with rfl | rfl
  exacts [prime_2, prime_239]

/-- Pratt certificate step: primality of 487. -/
theorem prime_487 : Nat.Prime 487 := by
  refine pratt_step 487 3 [2, 3, 3, 3, 3, 3] (by decide) (by decide) ?_ (by decide) (by decide) (by decide)
  intro q hq
  simp only [List.mem_cons, List.not_mem_nil, or_false] at hq
  rcases hq with rfl | rfl | rfl | rfl | rfl | rfl
  exacts [prime_2, prime_3, prime_3, prime_3, prime_3, prime_3]

/-- Pratt certificate step: primality of 991. -/
theorem prime_991 : Nat.Prime 991 := by
  refine pratt_step 991 6 [2, 3, 3, 5, 11] (by decide) (by decide) ?_ (by decide) (by decide) (by decide)
  intro q hq
  simp only [List.mem_cons, List.not_mem_nil, or_false] at hq
  rcases hq with rfl | rfl | rfl | rfl | rfl
  exacts [prime_2, prime_3, prime_3, prime_5, prime_11]

/-- Pratt certificate step: primality of 1723. -/
theorem prime_1723 : Nat.Prime 1723 := by
  refine pratt_step 1723 3 [2, 3, 7, 41] (by decide) (by decide) ?_ (by decide) (by decide) (by decide)
  intro q hq
  simp only [List.mem_cons, List.not_mem_nil, or_false] at hq
  rcases hq with rfl | rfl | rfl | rfl
  exacts [prime_2, prime_3, prime_7, prime_41]

/-- Pratt certificate step: primality of 2437. -/
theorem prime_2437 : Nat.Prime 2437 := by
  refine pratt_step 2437 2 [2, 2, 3, 7, 29] (by decide) (by decide) ?_ (by decide) (by decide) (by decide)
  intro q hq
  simp only [List.mem_cons, List.not_mem_nil, or_false] at hq
  rcases hq with rfl | rfl | rfl | rfl | rfl
  exacts [prime_2, prime_2, prime_3, prime_7, prime_29]

/-- Pratt certificate step: primality of 3727. -/
theorem prime_3727 : Nat.Prime 3727 := by
  refine pratt_step 3727 3 [2, 3, 3, 3, 3, 23] (by decide) (by decide) ?_ (by decide) (by decide) (by decide)
  intro q hq
  simp only [List.mem_cons, List.not_mem_nil, or_false] at hq
  rcases hq with rfl | rfl | rfl | rfl | rfl | rfl
  exacts [prime_2, prime_3, prime_3, prime_3, prime_3, prime_23]

/-- Pratt certificate step: primality of 4153. -/
theorem prime_4153 : Nat.Prime 4153 := by
  refine pratt_step 4153 5 [2, 2, 2, 3, 173] (by decide) (by decide) ?_ (by decide) (by decide) (by decide)
  intro q hq
  simp only [List.mem_cons, List.not_mem_nil, or_false] at hq
  rcases hq with rfl | rfl | rfl | rfl | rfl
  exacts [prime_2, prime_2, prime_2, prime_3, prime_173]

/-- Pratt certificate step: primality of 9463. -/
theorem prime_9463 : Nat.Prime 9463 := by
  refine pratt_step 9463 3 [2, 3, 19, 83] (by decide) (by decide) ?_ (by decide) (by decide) (by decide)
  intro q hq
  simp only [List.mem_cons, List.not_mem_nil, or_false] at hq
  rcases hq with rfl | rfl | rfl | rfl
  exacts [prime_2, prime_3, prime_19, prime_83]

/-- Pratt certificate step: primality of 32573. -/
theorem prime_32573 : Nat.Prime 32573 := by
  refine pratt_step 32573 2 [2, 2, 17, 479] (by decide) (by decide) ?_ (by decide) (by decide) (by decide)
  intro q hq
  simp only [List.mem_cons, List.not_mem_nil, or_false] at hq
  rcases hq with rfl | rfl | rfl | rfl
  exacts [prime_2, prime_2, prime_17, prime_479]

/-- Pratt certificate step: primality of 37853. -/
theorem prime_37853 : Nat.Prime 37853 := by
  refine pratt_step 37853 2 [2, 2, 9463] (by decide) (by decide) ?_ (by decide) (by decide) (by decide)
  intro q hq
  simp only [List.mem_cons, List.not_mem_nil, or_false] at hq
  rcases hq with rfl | rfl | rfl
  exacts [prime_2, prime_2, prime_9463]

/-- Pratt certificate step: primality of 57467. -/
theorem prime_57467 : Nat.Prime 57467 := by
  refine pratt_step 57467 2 [2, 59, 487] (by decide) (by decide) ?_ (by decide) (by decide) (by decide)
  intro q hq
  simp only [List.mem_cons, List.not_mem_nil, or_false] at hq
  rcases hq with rfl | rfl | rfl
  exacts [prime_2, prime_59, prime_487]

/-- Pratt certificate step: primality of 65147. -/
theorem prime_65147 : Nat.Prime 65147 := by
  refine pratt_step 65147 2 [2, 32573] (by decide) (by decide) ?_ (by decide) (by decide) (by decide)
  intro q hq
  simp only [List.mem_cons, List.not_mem_nil, or_false] at hq
  rcases hq with rfl | rfl
  exacts [prime_2, prime_32573]

/-- Pratt certificate step: primality of 75707. -/
theorem prime_75707 : Nat.Prime 75707 := by
  refine pratt_step 75707 2 [2, 37853] (by decide) (by decide) ?_ (by decide) (by decide) (by decide)
  intro q hq
  simp only [List.mem_cons, List.not_mem_nil, or_false] at hq
  rcases hq with rfl | rfl
  exacts [prime_2, prime_37853]

/-- Pratt certificate step: primality of 132049. -/
theorem prime_132049 : Nat.Prime 132049 := by
  refine pratt_step 132049 26 [2, 2, 2, 2, 3, 3, 7, 131] (by decide) (by decide) ?_ (by decide) (by decide) (by decide)
  intro q hq
  simp only [List.mem_cons, List.not_mem_nil, or_false] at hq
  rcases hq with rfl | rfl | rfl | rfl | rfl | rfl | rfl | rfl
  exacts [prime_2, prime_2, prime_2, prime_2, prime_3, prime_3, prime_7, prime_131]

/-- Pratt certificate step: primality of 430751. -/
theorem prime_430751 : Nat.Prime 430751 := by
  refine pratt_step 430751 17 [2, 5, 5, 5, 1723] (by decide) (by decide) ?_ (by decide) (by decide) (by decide)
  intro q hq
  simp only [List.mem_cons, List.not_mem_nil, or_false] at hq
  rcases hq with rfl | rfl | rfl | rfl | rfl
  exacts [prime_2, prime_5, prime_5, prime_5, prime_1723]

/-- Pratt certificate step: primality of 569003. -/
theorem prime_569003 : Nat.Prime 569003 := by
  refine pratt_step 569003 2 [2, 7, 97, 419] (by decide) (by decide) ?_ (by decide) (by decide) (by decide)
  intro q hq
  simp only [List.mem_cons, List.not_mem_nil, or_false] at hq
  rcases hq with rfl | rfl | rfl | rfl
  exacts [prime_2, prime_7, prime_97, prime_419]

/-- Pratt certificate step: primality of 1923133. -/
theorem prime_1923133 : Nat.Prime 1923133 := by
  refine pratt_step 1923133 2 [2, 2, 3, 43, 3727] (by decide) (by decide) ?_ (by decide) (by decide) (by decide)
  intro q hq
  simp only [List.mem_cons, List.not_mem_nil, or_false] at hq
  rcases hq with rfl | rfl | rfl | rfl | rfl
  exacts [prime_2, prime_2, prime_3, prime_43, prime_3727]

/-- Pratt certificate step: primality of 8574133. -/
theorem prime_8574133 : Nat.Prime 8574133 := by
  refine pratt_step 8574133 2 [2, 2, 3, 7, 103, 991] (by decide) (by decide) ?_ (by decide) (by decide) (by decide)
  intro q hq
  simp only [List.mem_cons, List.not_mem_nil, or_false] at hq
  rcases hq with rfl | rfl | rfl | rfl | rfl | rfl
  exacts [prime_2, prime_2, prime_3, prime_7, prime_103, prime_991]

/-- Pratt certificate step: primality of 2773320623. -/
theorem prime_2773320623 : Nat.Prime 2773320623 := by
  refine pratt_step 2773320623 5 [2, 2437, 569003] (by decide) (by decide) ?_ (by decide) (by decide) (by decide)
  intro q hq
  simp only [List.mem_cons, List.not_mem_nil, or_false] at hq
  rcases hq with rfl | rfl | rfl
  exacts [prime_2, prime_2437, prime_569003]

/-- Pratt certificate step: primality of 72106336199. -/
theorem prime_72106336199 : Nat.Prime 72106336199 := by
  refine pratt_step 72106336199 7 [2, 13, 2773320623] (by decide) (by decide) ?_ (by decide) (by decide) (by decide)
  intro q hq
  simp only [List.mem_cons, List.not_mem_nil, or_false] at hq
  rcases hq with rfl | rfl | rfl
  exacts [prime_2, prime_13, prime_2773320623]

/-- Pratt certificate step: primality of 1919519569386763. -/
theorem prime_1919519569386763 : Nat.Prime 1919519569386763 := by
  refine pratt_step 1919519569386763 2 [2, 3, 7, 19, 47, 47, 127, 8574133] (by decide) (by decide) ?_ (by decide) (by decide) (by decide)
  intro q hq
  simp only [List.mem_cons, List.not_mem_nil, or_false] at hq
  rcases hq with rfl | rfl | rfl | rfl | rfl | rfl | rfl | rfl
  exacts [prime_2, prime_3, prime_7, prime_19, prime_47, prime_47, prime_127, prime_8574133]

/-- Pratt certificate step: primality of 31757755568855353. -/
theorem prime_31757755568855353 : Nat.Prime 31757755568855353 := by
  refine pratt_step 31757755568855353 10 [2, 2, 2, 3, 31, 107, 223, 4153, 430751] (by decide) (by decide) ?_ (by decide) (by decide) (by decide)
  intro q hq
  simp only [List.mem_cons, List.not_mem_nil, or_false] at hq
  rcases hq with rfl | rfl | rfl | rfl | rfl | rfl | rfl | rfl | rfl
  exacts [prime_2, prime_2, prime_2, prime_3, prime_31, prime_107, prime_223, prime_4153, prime_430751]

/-- Pratt certificate step: primality of 75445702479781427272750846543864801. -/
theorem prime_75445702479781427272750846543864801 : Nat.Prime 75445702479781427272750846543864801 := by
  refine pratt_step 75445702479781427272750846543864801 7 [2, 2, 2, 2, 2, 3, 3, 5, 5, 75707, 72106336199, 1919519569386763] (by decide) (by decide) ?_ (by decide) (by decide) (by decide)
  intro q hq
  simp only [List.mem_cons, List.not_mem_nil, or_false] at hq
  rcases hq with rfl | rfl | rfl | rfl | rfl | rfl | rfl | rfl | rfl | rfl | rfl | rfl
  exacts [prime_2, prime_2, prime_2, prime_2, prime_2, prime_3, prime_3, prime_5, prime_5, prime_75707, prime_72106336199, prime_1919519569386763]

/-- Pratt certificate step: primality of 74058212732561358302231226437062788676166966415465897661863160754340907. -/
theorem prime_74058212732561358302231226437062788676166966415465897661863160754340907 : Nat.Prime 74058212732561358302231226437062788676166966415465897661863160754340907 := by
  refine pratt_step 74058212732561358302231226437062788676166966415465897661863160754340907 2 [2, 3, 353, 57467, 132049, 1923133, 31757755568855353, 75445702479781427272750846543864801] (by decide) (by decide) ?_ (by decide) (by decide) (by decide)
  intro q hq
  simp only [List.mem_cons, List.not_mem_nil, or_false] at hq
  rcases hq with rfl | rfl | rfl | rfl | rfl | rfl | rfl | rfl
  exacts [prime_2, prime_3, prime_353, prime_57467, prime_132049, prime_1923133, prime_31757755568855353, prime_75445702479781427272750846543864801]

/-- Pratt certificate step: primality of 57896044618658097711785492504343953926634992332820282019728792003956564819949. -/
theorem prime_57896044618658097711785492504343953926634992332820282019728792003956564819949 : Nat.Prime 57896044618658097711785492504343953926634992332820282019728792003956564819949 := by
  refine pratt_step 57896044618658097711785492504343953926634992332820282019728792003956564819949 2 [2, 2, 3, 65147, 74058212732561358302231226437062788676166966415465897661863160754340907] (by decide) (by decide) ?_ (by decide) (by decide) (by decide)
  intro q hq
  simp only [List.mem_cons, List.not_mem_nil, or_false] at hq
  rcases hq with rfl | rfl | rfl | rfl | rfl
  exacts [prime_2, prime_2, prime_3, prime_65147, prime_74058212732561358302231226437062788676166966415465897661863160754340907]

/-- The field prime `p = 2^255 - 19` is prime. -/
theorem prime_fieldP : Nat.Prime field.p := by
  have h : field.p = 57896044618658097711785492504343953926634992332820282019728792003956564819949 := by decide
  rw [h]
  exact prime_57896044618658097711785492504343953926634992332820282019728792003956564819949

end Curve

namespace Curve

theorem fieldP_pos : 0 < (field.p : Int) := by decide

theorem reduce_nonneg (v : Int) : 0 ≤ field.reduce v :=
  Int.emod_nonneg v (by decide)

theorem reduce_lt (v : Int) : field.reduce v < (field.p : Int) :=
  Int.emod_lt_of_pos v fieldP_pos

theorem intCast_reduce (v : Int) :
    ((field.reduce v : Int) : ZMod field.p) = (v : ZMod field.p) :=
  ZMod.intCast_mod v field.p

theorem intCast_ne_zero_of_emod (z : Int) (hz : z % (field.p : Int) ≠ 0) :
    (z : ZMod field.p) ≠ 0 := by
  intro h
  rw [ZMod.intCast_zmod_eq_zero_iff_dvd] at h
  exact hz (Int.dvd_iff_emod_eq_zero.mp h)

theorem emod_ne_zero_of_intCast (z : Int) (hz : (z : ZMod field.p) ≠ 0) :
    z % (field.p : Int) ≠ 0 := by
  intro h
  have hd : ((field.p : Nat) : Int) ∣ z := Int.dvd_iff_emod_eq_zero.mpr h
  exact hz ((ZMod.intCast_zmod_eq_zero_iff_dvd z field.p).mpr hd)

theorem intCast_inj_of_range (a b : Int) (ha0 : 0 ≤ a)
    (ha1 : a < (field.p : Int)) (hb0 : 0 ≤ b) (hb1 : b < (field.p : Int))
    (h : (a : ZMod field.p) = (b : ZMod field.p)) : a = b := by
  have hmod : a ≡ b [ZMOD (field.p : Nat)] :=
    (ZMod.intCast_eq_intCast_iff a b field.p).mp h
  have h2 : a % (field.p : Int) = b % (field.p : Int) := hmod
  rwa [Int.emod_eq_of_lt ha0 ha1, Int.emod_eq_of_lt hb0 hb1] at h2

theorem inverseOf_spec (z : Int) (hz : z % (field.p : Int) ≠ 0) :
    ∃ i : Int, field.inverseOf z = some i ∧ 0 ≤ i ∧ i < (field.p : Int) ∧
      (z : ZMod field.p) * (i : ZMod field.p) = 1 := by
  haveI : Fact (Nat.Prime field.p) := ⟨prime_fieldP⟩
  refine ⟨((field.powMod (z % (field.p : Int)).toNat (field.p - 2) field.p :
    Nat) : Int), ?_, ?_, ?_, ?_⟩
  · simp only [field.inverseOf, if_neg hz]
  · exact Int.natCast_nonneg _
  · exact_mod_cast powMod_lt _ _ _ (by decide)
  · have hzc : (z : ZMod field.p) ≠ 0 := intCast_ne_zero_of_emod z hz
    have htn : (((z % (field.p : Int)).toNat : Int) : ZMod field.p) =
        (z : ZMod field.p) := by
      rw [Int.toNat_of_nonneg (Int.emod_nonneg z (by decide))]
      exact intCast_reduce z
    rw [Int.cast_natCast, natCast_powMod _ _ _ (by decide)]
    have htn' : (((z % (field.p : Int)).toNat : Nat) : ZMod field.p) =
        (z : ZMod field.p) := by rw [← Int.cast_natCast]; exact htn
    rw [htn']
    have hsucc : field.p - 1 = (field.p - 2) + 1 := by decide
    have := ZMod.pow_card_sub_one_eq_one hzc
    rw [hsucc, pow_succ] at this
    calc (z : ZMod field.p) * (z : ZMod field.p) ^ (field.p - 2)
        = (z : ZMod field.p) ^ (field.p - 2) * (z : ZMod field.p) := by ring
      _ = 1 := this

theorem X_spec (x z : Int) (hz : z % (field.p : Int) ≠ 0) :
    ∃ w : Int, X x z = some w ∧ 0 ≤ w ∧ w < (field.p : Int) ∧
      (w : ZMod field.p) * (z : ZMod field.p) = (x : ZMod field.p) := by
  obtain ⟨i, hi, hi0, hi1, hzi⟩ := inverseOf_spec z hz
  refine ⟨field.reduce (x * i), ?_, reduce_nonneg _, reduce_lt _, ?_⟩
  · simp only [X, hi]; rfl
  · rw [intCast_reduce]
    push_cast
    calc ((x : ZMod field.p) * (i : ZMod field.p)) * (z : ZMod field.p)
        = (x : ZMod field.p) * ((z : ZMod field.p) * (i : ZMod field.p)) := by
          ring
      _ = (x : ZMod field.p) := by rw [hzi, mul_one]

theorem X_none (x z : Int) (hz : z % (field.p : Int) = 0) :
    X x z = none := by
  simp only [X, field.inverseOf, if_pos hz]
  rfl

end Curve

namespace Curve

theorem reduce_reduce (v : Int) : field.reduce (field.reduce v) = field.reduce v :=
  Int.emod_emod_of_dvd v dvd_rfl

theorem four_ne_zero_zmod : (4 : ZMod field.p) ≠ 0 := by
  haveI : NeZero field.p := ⟨by decide⟩
  intro h
  have h4 : ((4 : Nat) : ZMod field.p) = 0 := by
    rw [Nat.cast_ofNat]
    exact h
  rw [ZMod.natCast_zmod_eq_zero_iff_dvd] at h4
  have : ¬ (field.p ∣ 4) := by decide
  exact this h4

theorem one_ne_zero_zmod : (1 : ZMod field.p) ≠ 0 := by
  haveI : Fact (1 < field.p) := ⟨by decide⟩
  exact one_ne_zero

theorem bit_high_zero (n j : Nat) (h : n < 2 ^ j) : (n >>> j) &&& 1 = 0 := by
  rw [Nat.shiftRight_eq_div_pow, Nat.div_eq_of_lt h]
  decide

theorem ladderIter_bit0_state (x1 : Int) (n t : Nat)
    (hbit : (n >>> t) &&& 1 = 0) (a b : Int) :
    ∃ a' b' : Int, ladderIter x1 n t ⟨1, 0, a, b, false⟩ = ⟨1, 0, a', b', false⟩ ∧
      (a' : ZMod field.p) = 4 * (a : ZMod field.p) ^ 2 ∧
      (b' : ZMod field.p) = 4 * (x1 : ZMod field.p) * (b : ZMod field.p) ^ 2 := by
  refine ⟨field.reduce (((a - b) * (1 + 0) + (a + b) * (1 - 0)) *
      ((a - b) * (1 + 0) + (a + b) * (1 - 0))),
    field.reduce (x1 * ((a - b) * (1 + 0) - (a + b) * (1 - 0)) *
      ((a - b) * (1 + 0) - (a + b) * (1 - 0))), ?_, ?_, ?_⟩
  · simp only [ladderIter, ladderStep, cswap, hbit]
    norm_num
    constructor
    · show field.reduce (((1 + 0) * (1 + 0)) * ((1 - 0) * (1 - 0))) = 1
      decide
    · show field.reduce ((((1 + 0) * (1 + 0)) - ((1 - 0) * (1 - 0))) *
        ((1 + 0) * (1 + 0) + multA24 * (((1 + 0) * (1 + 0)) -
          ((1 - 0) * (1 - 0))))) = 0
      decide
  · rw [intCast_reduce]
    push_cast
    ring
  · rw [intCast_reduce]
    push_cast
    ring

theorem multA24_eq : multA24 = 121665 := by decide

theorem doubleA24_eq : doubleA24 = 121666 := by decide

theorem ladderIter_bit1_state (x1 : Int) (n t : Nat)
    (hbit : (n >>> t) &&& 1 = 1) (a b : Int) :
    ∃ c2 d2 a' b' : Int,
      ladderIter x1 n t ⟨1, 0, a, b, false⟩ = ⟨c2, d2, a', b', true⟩ ∧
      (c2 : ZMod field.p) =
        ((a : ZMod field.p) ^ 2 - (b : ZMod field.p) ^ 2) ^ 2 ∧
      (d2 : ZMod field.p) = 4 * (a : ZMod field.p) * (b : ZMod field.p) *
        ((a : ZMod field.p) ^ 2 +
          486662 * (a : ZMod field.p) * (b : ZMod field.p) +
          (b : ZMod field.p) ^ 2) ∧
      (a' : ZMod field.p) = 4 * (a : ZMod field.p) ^ 2 ∧
      (b' : ZMod field.p) = 4 * (x1 : ZMod field.p) * (b : ZMod field.p) ^ 2 := by
  refine ⟨field.reduce (((a + b) * (a + b)) * ((a - b) * (a - b))),
    field.reduce ((((a + b) * (a + b)) - ((a - b) * (a - b))) *
      ((a + b) * (a + b) + multA24 * (((a + b) * (a + b)) -
        ((a - b) * (a - b))))),
    field.reduce (((1 - 0) * (a + b) + (1 + 0) * (a - b)) *
      ((1 - 0) * (a + b) + (1 + 0) * (a - b))),
    field.reduce (x1 * ((1 - 0) * (a + b) - (1 + 0) * (a - b)) *
      ((1 - 0) * (a + b) - (1 + 0) * (a - b))), ?_, ?_, ?_, ?_, ?_⟩
  · simp only [ladderIter, ladderStep, cswap, hbit]
    norm_num
  · rw [intCast_reduce]
    push_cast
    ring
  · rw [intCast_reduce, multA24_eq]
    push_cast
    ring
  · rw [intCast_reduce]
    push_cast
    ring
  · rw [intCast_reduce]
    push_cast
    ring

theorem ladderIter_bit0_swapped (x1 : Int) (n t : Nat)
    (hbit : (n >>> t) &&& 1 = 0) (c d a b : Int) :
    ∃ x2 z2 x3 z3 : Int,
      ladderIter x1 n t ⟨c, d, a, b, true⟩ = ⟨x2, z2, x3, z3, false⟩ ∧
      (x2 : ZMod field.p) =
        ((a : ZMod field.p) ^ 2 - (b : ZMod field.p) ^ 2) ^ 2 ∧
      (z2 : ZMod field.p) = 4 * (a : ZMod field.p) * (b : ZMod field.p) *
        ((a : ZMod field.p) ^ 2 +
          486662 * (a : ZMod field.p) * (b : ZMod field.p) +
          (b : ZMod field.p) ^ 2) := by
  refine ⟨field.reduce (((a + b) * (a + b)) * ((a - b) * (a - b))),
    field.reduce ((((a + b) * (a + b)) - ((a - b) * (a - b))) *
      ((a + b) * (a + b) + multA24 * (((a + b) * (a + b)) -
        ((a - b) * (a - b))))),
    field.reduce (((c - d) * (a + b) + (c + d) * (a - b)) *
      ((c - d) * (a + b) + (c + d) * (a - b))),
    field.reduce (x1 * ((c - d) * (a + b) - (c + d) * (a - b)) *
      ((c - d) * (a + b) - (c + d) * (a - b))), ?_, ?_, ?_⟩
  · simp only [ladderIter, ladderStep, cswap, hbit]
    norm_num
  · rw [intCast_reduce]
    push_cast
    ring
  · rw [intCast_reduce, multA24_eq]
    push_cast
    ring

theorem pointDouble_cast (x z : Int) :
    (((pointDouble x z).x : Int) : ZMod field.p) =
      ((x : ZMod field.p) ^ 2 - (z : ZMod field.p) ^ 2) ^ 2 ∧
    (((pointDouble x z).z : Int) : ZMod field.p) =
      4 * (x : ZMod field.p) * (z : ZMod field.p) *
        ((x : ZMod field.p) ^ 2 +
          486662 * (x : ZMod field.p) * (z : ZMod field.p) +
          (z : ZMod field.p) ^ 2) := by
  constructor
  · show ((field.reduce (field.reduce ((x + z) * (x + z) * ((x - z) * (x - z))))
      : Int) : ZMod field.p) = _
    rw [reduce_reduce, intCast_reduce]
    push_cast
    ring
  · show ((field.reduce (field.reduce (4 * x * z) *
      (field.reduce (x - z) * field.reduce (x - z) +
        doubleA24 * field.reduce (4 * x * z))) : Int) : ZMod field.p) = _
    rw [doubleA24_eq, intCast_reduce]
    push_cast
    rw [intCast_reduce, intCast_reduce]
    push_cast
    ring

end Curve

namespace Curve

theorem zeroChainGen (x1 : Int) (n : Nat) (I : Int → Int → Prop)
    (hstep : ∀ a b a' b' : Int, I a b →
      (a' : ZMod field.p) = 4 * (a : ZMod field.p) ^ 2 →
      (b' : ZMod field.p) = 4 * (x1 : ZMod field.p) * (b : ZMod field.p) ^ 2 →
      I a' b') :
    ∀ t m : Nat, m ≤ t →
      (∀ j, m < j → j ≤ t → (n >>> j) &&& 1 = 0) →
      ∀ a b : Int, I a b →
      ∃ a' b' : Int,
        pointMultAux x1 n t ⟨1, 0, a, b, false⟩ =
          pointMultAux x1 n m ⟨1, 0, a', b', false⟩ ∧ I a' b' := by
  intro t
  induction t with
  | zero =>
    intro m hm _ a b hI
    have hm0 : m = 0 := by omega
    subst hm0
    exact ⟨a, b, rfl, hI⟩
  | succ t ih =>
    intro m hm hbits a b hI
    by_cases hmt : m = t + 1
    · subst hmt; exact ⟨a, b, rfl, hI⟩
    · have hm' : m ≤ t := by omega
      have hbit : (n >>> (t + 1)) &&& 1 = 0 := hbits (t + 1) (by omega) (le_refl _)
      obtain ⟨a1, b1, hs, ha1, hb1⟩ := ladderIter_bit0_state x1 n (t + 1) hbit a b
      have hstep1 : pointMultAux x1 n (t + 1) ⟨1, 0, a, b, false⟩ =
          pointMultAux x1 n t (ladderIter x1 n (t + 1) ⟨1, 0, a, b, false⟩) := rfl
      rw [hstep1, hs]
      exact ih m hm' (fun j h1 h2 => hbits j h1 (by omega)) a1 b1
        (hstep a b a1 b1 hI ha1 hb1)

theorem pointMult_eval (X0 : Int) (n : Nat) (s : LadderState)
    (h : pointMultAux X0 n 255 (ladderInit X0) = s) :
    pointMult X0 n = ⟨(cswap s.swap s.x_2 s.x_3).1, (cswap s.swap s.z_2 s.z_3).1⟩ := by
  simp only [pointMult, h]

/-- C2: for every valid affine X-coordinate `X0` (one in canonical range whose
resulting ratio has `z` not congruent to 0 mod p), affine recovery applied to
`pointMult X0 1` returns `X0` itself. -/
theorem C2_pointMult_one_identity (X0 : Int) (h0 : 0 ≤ X0)
    (h1 : X0 < (field.p : Int))
    (hz : (pointMult X0 1).z % (field.p : Int) ≠ 0) :
    X (pointMult X0 1).x (pointMult X0 1).z = some X0 := by
  haveI : Fact (Nat.Prime field.p) := ⟨prime_fieldP⟩
  obtain ⟨a1, b1, hchain, hIa, hIb⟩ :=
    zeroChainGen X0 1
      (fun a b => (a : ZMod field.p) = (X0 : ZMod field.p) * (b : ZMod field.p) ∧
        ((X0 : ZMod field.p) ≠ 0 → (b : ZMod field.p) ≠ 0))
      (by
        rintro a b a' b' ⟨hab, hbne⟩ ha' hb'
        constructor
        · rw [ha', hab, hb']; ring
        · intro hx0
          rw [hb']
          exact mul_ne_zero (mul_ne_zero four_ne_zero_zmod hx0)
            (pow_ne_zero _ (hbne hx0)))
      255 0 (by omega)
      (fun j hj _ => bit_high_zero 1 j (Nat.one_lt_two_pow (by omega)))
      X0 1 ⟨by rw [Int.cast_one, mul_one], fun _ => one_ne_zero_zmod⟩
  obtain ⟨c2, d2, a2, b2, hiter, hc2, hd2, ha2, hb2⟩ :=
    ladderIter_bit1_state X0 1 0 (by decide) a1 b1
  have hfin : pointMultAux X0 1 255 (ladderInit X0) = ⟨c2, d2, a2, b2, true⟩ := by
    have hinit : ladderInit X0 = ⟨1, 0, X0, 1, false⟩ := rfl
    rw [hinit, hchain]
    show ladderIter X0 1 0 ⟨1, 0, a1, b1, false⟩ = _
    exact hiter
  have hres : pointMult X0 1 = ⟨a2, b2⟩ := by
    rw [pointMult_eval X0 1 _ hfin]
    simp [cswap]
  rw [hres] at hz ⊢
  by_cases hX0 : (X0 : ZMod field.p) = 0
  · exfalso
    have hne := intCast_ne_zero_of_emod b2 hz
    apply hne
    rw [hb2, hX0]
    ring
  · have hb1ne := hIb hX0
    have hb2ne : (b2 : ZMod field.p) ≠ 0 := by
      rw [hb2]
      exact mul_ne_zero (mul_ne_zero four_ne_zero_zmod hX0)
        (pow_ne_zero _ hb1ne)
    obtain ⟨w, hw, hw0, hw1, hwc⟩ := X_spec a2 b2 hz
    have ha2' : (a2 : ZMod field.p) =
        (X0 : ZMod field.p) * (b2 : ZMod field.p) := by
      rw [ha2, hIa, hb2]; ring
    have hwX : (w : ZMod field.p) = (X0 : ZMod field.p) :=
      mul_right_cancel₀ hb2ne (hwc.trans ha2')
    have hwX' : w = X0 := intCast_inj_of_range w X0 hw0 hw1 h0 h1 hwX
    rw [hw, hwX']

end Curve

namespace Curve

theorem inverseOf_eq (z i : Int) (hz : z % (field.p : Int) ≠ 0)
    (hi0 : 0 ≤ i) (hi1 : i < (field.p : Int))
    (hmul : (z * i) % (field.p : Int) = 1) :
    field.inverseOf z = some i := by
  haveI : Fact (Nat.Prime field.p) := ⟨prime_fieldP⟩
  obtain ⟨i', hsome, hi'0, hi'1, hzi'⟩ := inverseOf_spec z hz
  have hzc : (z : ZMod field.p) ≠ 0 := intCast_ne_zero_of_emod z hz
  have hred : field.reduce (z * i) = 1 := hmul
  have hcast : (z : ZMod field.p) * (i : ZMod field.p) = 1 := by
    calc (z : ZMod field.p) * (i : ZMod field.p)
        = ((z * i : Int) : ZMod field.p) := by push_cast; ring
      _ = ((field.reduce (z * i) : Int) : ZMod field.p) :=
          (intCast_reduce _).symm
      _ = ((1 : Int) : ZMod field.p) := by rw [hred]
      _ = 1 := by push_cast; rfl
  have hii : (i' : ZMod field.p) = (i : ZMod field.p) := by
    apply mul_left_cancel₀ hzc
    rw [hzi', hcast]
  rw [hsome, intCast_inj_of_range i' i hi'0 hi'1 hi0 hi1 hii]

theorem X_eval (x z i w : Int) (hz : z % (field.p : Int) ≠ 0)
    (hi0 : 0 ≤ i) (hi1 : i < (field.p : Int))
    (hmul : (z * i) % (field.p : Int) = 1)
    (hred : field.reduce (x * i) = w) : X x z = some w := by
  rw [X, inverseOf_eq z i hz hi0 hi1 hmul]
  show some (field.reduce (x * i)) = some w
  rw [hred]

end Curve

namespace Curve

theorem evalLadder91_aux : pointMultAux 9 1 255 (ladderInit 9) = ⟨37662245757590278027801232800214427772790684488769689058850820139811678634833, 22278562500865862822602486730723108137506001620770986635425720330518022911743, 44672477561504263632858119322359449557071443250400435785170944, 4963608617944918181428679924706605506341271472266715087241216, true⟩ := by
  have h1 : runBits 9 1 255 64 ⟨1, 0, 9, 1, false⟩ = ⟨1, 0, 48205833310580885971694973922745872208408918521877433636313458681150271400548, 37520672933763486058958048493829515760175986687330982637217490966770343944477, false⟩ := by decide
  have h2 : runBits 9 1 191 64 ⟨1, 0, 48205833310580885971694973922745872208408918521877433636313458681150271400548, 37520672933763486058958048493829515760175986687330982637217490966770343944477, false⟩ = ⟨1, 0, 16508069919795141197201436046583655511575506275871932287194796945966220466228, 27565805377158614671593711784884385690901719511905895596234440551310275527336, false⟩ := by decide
  have h3 : runBits 9 1 127 64 ⟨1, 0, 16508069919795141197201436046583655511575506275871932287194796945966220466228, 27565805377158614671593711784884385690901719511905895596234440551310275527336, false⟩ = ⟨1, 0, 20808812059597918699642916930766598334132506879104529640921965382639549165237, 47342347154467178075793484940130475091175272578760722642113723267815055878320, false⟩ := by decide
  have h4 : runBits 9 1 63 64 ⟨1, 0, 20808812059597918699642916930766598334132506879104529640921965382639549165237, 47342347154467178075793484940130475091175272578760722642113723267815055878320, false⟩ = ⟨37662245757590278027801232800214427772790684488769689058850820139811678634833, 22278562500865862822602486730723108137506001620770986635425720330518022911743, 44672477561504263632858119322359449557071443250400435785170944, 4963608617944918181428679924706605506341271472266715087241216, true⟩ := by decide
  rw [pointMultAux_eq_runBits]
  show runBits 9 1 255 (64 + 192) ⟨1, 0, 9, 1, false⟩ = ⟨37662245757590278027801232800214427772790684488769689058850820139811678634833, 22278562500865862822602486730723108137506001620770986635425720330518022911743, 44672477561504263632858119322359449557071443250400435785170944, 4963608617944918181428679924706605506341271472266715087241216, true⟩
  rw [runBits_add, h1]
  show runBits 9 1 191 (64 + 128) ⟨1, 0, 48205833310580885971694973922745872208408918521877433636313458681150271400548, 37520672933763486058958048493829515760175986687330982637217490966770343944477, false⟩ = ⟨37662245757590278027801232800214427772790684488769689058850820139811678634833, 22278562500865862822602486730723108137506001620770986635425720330518022911743, 44672477561504263632858119322359449557071443250400435785170944, 4963608617944918181428679924706605506341271472266715087241216, true⟩
  rw [runBits_add, h2]
  show runBits 9 1 127 (64 + 64) ⟨1, 0, 16508069919795141197201436046583655511575506275871932287194796945966220466228, 27565805377158614671593711784884385690901719511905895596234440551310275527336, false⟩ = ⟨37662245757590278027801232800214427772790684488769689058850820139811678634833, 22278562500865862822602486730723108137506001620770986635425720330518022911743, 44672477561504263632858119322359449557071443250400435785170944, 4963608617944918181428679924706605506341271472266715087241216, true⟩
  rw [runBits_add, h3]
  show runBits 9 1 63 64 ⟨1, 0, 20808812059597918699642916930766598334132506879104529640921965382639549165237, 47342347154467178075793484940130475091175272578760722642113723267815055878320, false⟩ = ⟨37662245757590278027801232800214427772790684488769689058850820139811678634833, 22278562500865862822602486730723108137506001620770986635425720330518022911743, 44672477561504263632858119322359449557071443250400435785170944, 4963608617944918181428679924706605506341271472266715087241216, true⟩
  exact h4

theorem evalLadder91_eq : pointMult 9 1 = ⟨44672477561504263632858119322359449557071443250400435785170944, 4963608617944918181428679924706605506341271472266715087241216⟩ := by
  rw [pointMult_eval 9 1 _ evalLadder91_aux]
  decide

theorem evalLadder9K_aux : pointMultAux 9 4672304307326083682432349001036689820303857967815654425008157265135933868460 255 (ladderInit 9) = ⟨17980815445801654560365419028253588120193932686991223651024104106391664027076, 9741104444401164300071298372822346822385336616294195133832286089939486048736, 18198225187521386522446297278976518102080809543288947249819012869991045027717, 5403241443888757044638125227949195692153518716480013538231037562988572802660, false⟩ := by
  have h1 : runBits 9 4672304307326083682432349001036689820303857967815654425008157265135933868460 255 64 ⟨1, 0, 9, 1, false⟩ = ⟨27277661765782992808430855260912123409809947215490344313180513111240517573142, 41757676168503821388419005314153614056739247575997465567200989282380485052930, 43391546404864587403776581930618606717225625417683419763417830118014462448486, 31233904919433375499708743392784675653986600788315118141237806245245880967753, true⟩ := by decide
  have h2 : runBits 9 4672304307326083682432349001036689820303857967815654425008157265135933868460 191 64 ⟨27277661765782992808430855260912123409809947215490344313180513111240517573142, 41757676168503821388419005314153614056739247575997465567200989282380485052930, 43391546404864587403776581930618606717225625417683419763417830118014462448486, 31233904919433375499708743392784675653986600788315118141237806245245880967753, true⟩ = ⟨7831446680230135351059543751487381536910982319612217357000524928340191166639, 23558078068674170967320927196761784031002681586972808536169940350645027350457, 22866237273450800340867385091997572782917742706642622081407036504708614112654, 14195790488209393245542580073061688030643323228339970472690779493419684551009, true⟩ := by decide
  have h3 : runBits 9 4672304307326083682432349001036689820303857967815654425008157265135933868460 127 64 ⟨7831446680230135351059543751487381536910982319612217357000524928340191166639, 23558078068674170967320927196761784031002681586972808536169940350645027350457, 22866237273450800340867385091997572782917742706642622081407036504708614112654, 14195790488209393245542580073061688030643323228339970472690779493419684551009, true⟩ = ⟨40895389406112477937163235390588926706582917276911143164826690667358546917200, 54617477684939096881795726734437784224514763907097478632730360181898616939267, 395215737887788263834256242031621743851473748879732708302894947732947969207, 48919755785076802132195787999347718594485914129488729133605730579150635231907, true⟩ := by decide
  have h4 : runBits 9 4672304307326083682432349001036689820303857967815654425008157265135933868460 63 64 ⟨40895389406112477937163235390588926706582917276911143164826690667358546917200, 54617477684939096881795726734437784224514763907097478632730360181898616939267, 395215737887788263834256242031621743851473748879732708302894947732947969207, 48919755785076802132195787999347718594485914129488729133605730579150635231907, true⟩ = ⟨17980815445801654560365419028253588120193932686991223651024104106391664027076, 9741104444401164300071298372822346822385336616294195133832286089939486048736, 18198225187521386522446297278976518102080809543288947249819012869991045027717, 5403241443888757044638125227949195692153518716480013538231037562988572802660, false⟩ := by decide
  rw [pointMultAux_eq_runBits]
  show runBits 9 4672304307326083682432349001036689820303857967815654425008157265135933868460 255 (64 + 192) ⟨1, 0, 9, 1, false⟩ = ⟨17980815445801654560365419028253588120193932686991223651024104106391664027076, 9741104444401164300071298372822346822385336616294195133832286089939486048736, 18198225187521386522446297278976518102080809543288947249819012869991045027717, 5403241443888757044638125227949195692153518716480013538231037562988572802660, false⟩
  rw [runBits_add, h1]
  show runBits 9 4672304307326083682432349001036689820303857967815654425008157265135933868460 191 (64 + 128) ⟨27277661765782992808430855260912123409809947215490344313180513111240517573142, 41757676168503821388419005314153614056739247575997465567200989282380485052930, 43391546404864587403776581930618606717225625417683419763417830118014462448486, 31233904919433375499708743392784675653986600788315118141237806245245880967753, true⟩ = ⟨17980815445801654560365419028253588120193932686991223651024104106391664027076, 9741104444401164300071298372822346822385336616294195133832286089939486048736, 18198225187521386522446297278976518102080809543288947249819012869991045027717, 5403241443888757044638125227949195692153518716480013538231037562988572802660, false⟩
  rw [runBits_add, h2]
  show runBits 9 4672304307326083682432349001036689820303857967815654425008157265135933868460 127 (64 + 64) ⟨7831446680230135351059543751487381536910982319612217357000524928340191166639, 23558078068674170967320927196761784031002681586972808536169940350645027350457, 22866237273450800340867385091997572782917742706642622081407036504708614112654, 14195790488209393245542580073061688030643323228339970472690779493419684551009, true⟩ = ⟨17980815445801654560365419028253588120193932686991223651024104106391664027076, 9741104444401164300071298372822346822385336616294195133832286089939486048736, 18198225187521386522446297278976518102080809543288947249819012869991045027717, 5403241443888757044638125227949195692153518716480013538231037562988572802660, false⟩
  rw [runBits_add, h3]
  show runBits 9 4672304307326083682432349001036689820303857967815654425008157265135933868460 63 64 ⟨40895389406112477937163235390588926706582917276911143164826690667358546917200, 54617477684939096881795726734437784224514763907097478632730360181898616939267, 395215737887788263834256242031621743851473748879732708302894947732947969207, 48919755785076802132195787999347718594485914129488729133605730579150635231907, true⟩ = ⟨17980815445801654560365419028253588120193932686991223651024104106391664027076, 9741104444401164300071298372822346822385336616294195133832286089939486048736, 18198225187521386522446297278976518102080809543288947249819012869991045027717, 5403241443888757044638125227949195692153518716480013538231037562988572802660, false⟩
  exact h4

theorem evalLadder9K_eq : pointMult 9 4672304307326083682432349001036689820303857967815654425008157265135933868460 = ⟨17980815445801654560365419028253588120193932686991223651024104106391664027076, 9741104444401164300071298372822346822385336616294195133832286089939486048736⟩ := by
  rw [pointMult_eval 9 4672304307326083682432349001036689820303857967815654425008157265135933868460 _ evalLadder9K_aux]
  decide

theorem evalLadderUK_aux : pointMultAux 34426434033919594451155107781188821651316167215306631574996226621102155684838 31029842492115040904895560451863089656472772604678260265531221036453811406496 255 (ladderInit 34426434033919594451155107781188821651316167215306631574996226621102155684838) = ⟨50889103918139275901740563842325826006903861766833838848191971035298925030287, 8498273768977287305779341002625321477622575626669583626372172661860066974349, 11046037934770244451856523270460475261388207556502607139601003020449309237919, 21821919974158146377302460717249277868777336283585252485291773639499852536726, false⟩ := by
  have h1 : runBits 34426434033919594451155107781188821651316167215306631574996226621102155684838 31029842492115040904895560451863089656472772604678260265531221036453811406496 255 64 ⟨1, 0, 34426434033919594451155107781188821651316167215306631574996226621102155684838, 1, false⟩ = ⟨44126432483570132313960745078564715764289598462890804150114655319775190864749, 29724427015521057972692369158372608358814449398591774342714287991406803443814, 19616221626175279341426941805164440552722594562494559503078609642355917415490, 11723772110766754948624672828220593247944556934725713778695557550205300121057, false⟩ := by decide
  have h2 : runBits 34426434033919594451155107781188821651316167215306631574996226621102155684838 31029842492115040904895560451863089656472772604678260265531221036453811406496 191 64 ⟨44126432483570132313960745078564715764289598462890804150114655319775190864749, 29724427015521057972692369158372608358814449398591774342714287991406803443814, 19616221626175279341426941805164440552722594562494559503078609642355917415490, 11723772110766754948624672828220593247944556934725713778695557550205300121057, false⟩ = ⟨22228949349412499557464933473466706364386774692504626641149222825248775122395, 18510376104114065745685496104796678736928420587316584844105617196108339026476, 11452326822264715665907872970309933537635090345717473328580524723697154095606, 47346666082926479971306212252578423482886970197852198813998408210613893339576, false⟩ := by decide
  have h3 : runBits 34426434033919594451155107781188821651316167215306631574996226621102155684838 31029842492115040904895560451863089656472772604678260265531221036453811406496 127 64 ⟨22228949349412499557464933473466706364386774692504626641149222825248775122395, 18510376104114065745685496104796678736928420587316584844105617196108339026476, 11452326822264715665907872970309933537635090345717473328580524723697154095606, 47346666082926479971306212252578423482886970197852198813998408210613893339576, false⟩ = ⟨17824407755896155255113538221893472990605107608470870642704627346266382547309, 23756920053217792374120378129133148502644943199552411347733864482603137707131, 49130123764382167743220836264600870102537720078759858400019248136917928464600, 46025329189036459001098699476388870940669097092882359212475783546158667222756, true⟩ := by decide
  have h4 : runBits 34426434033919594451155107781188821651316167215306631574996226621102155684838 31029842492115040904895560451863089656472772604678260265531221036453811406496 63 64 ⟨17824407755896155255113538221893472990605107608470870642704627346266382547309, 23756920053217792374120378129133148502644943199552411347733864482603137707131, 49130123764382167743220836264600870102537720078759858400019248136917928464600, 46025329189036459001098699476388870940669097092882359212475783546158667222756, true⟩ = ⟨50889103918139275901740563842325826006903861766833838848191971035298925030287, 8498273768977287305779341002625321477622575626669583626372172661860066974349, 11046037934770244451856523270460475261388207556502607139601003020449309237919, 21821919974158146377302460717249277868777336283585252485291773639499852536726, false⟩ := by decide
  rw [pointMultAux_eq_runBits]
  show runBits 34426434033919594451155107781188821651316167215306631574996226621102155684838 31029842492115040904895560451863089656472772604678260265531221036453811406496 255 (64 + 192) ⟨1, 0, 34426434033919594451155107781188821651316167215306631574996226621102155684838, 1, false⟩ = ⟨50889103918139275901740563842325826006903861766833838848191971035298925030287, 8498273768977287305779341002625321477622575626669583626372172661860066974349, 11046037934770244451856523270460475261388207556502607139601003020449309237919, 21821919974158146377302460717249277868777336283585252485291773639499852536726, false⟩
  rw [runBits_add, h1]
  show runBits 34426434033919594451155107781188821651316167215306631574996226621102155684838 31029842492115040904895560451863089656472772604678260265531221036453811406496 191 (64 + 128) ⟨44126432483570132313960745078564715764289598462890804150114655319775190864749, 29724427015521057972692369158372608358814449398591774342714287991406803443814, 19616221626175279341426941805164440552722594562494559503078609642355917415490, 11723772110766754948624672828220593247944556934725713778695557550205300121057, false⟩ = ⟨50889103918139275901740563842325826006903861766833838848191971035298925030287, 8498273768977287305779341002625321477622575626669583626372172661860066974349, 11046037934770244451856523270460475261388207556502607139601003020449309237919, 21821919974158146377302460717249277868777336283585252485291773639499852536726, false⟩
  rw [runBits_add, h2]
  show runBits 34426434033919594451155107781188821651316167215306631574996226621102155684838 31029842492115040904895560451863089656472772604678260265531221036453811406496 127 (64 + 64) ⟨22228949349412499557464933473466706364386774692504626641149222825248775122395, 18510376104114065745685496104796678736928420587316584844105617196108339026476, 11452326822264715665907872970309933537635090345717473328580524723697154095606, 47346666082926479971306212252578423482886970197852198813998408210613893339576, false⟩ = ⟨50889103918139275901740563842325826006903861766833838848191971035298925030287, 8498273768977287305779341002625321477622575626669583626372172661860066974349, 11046037934770244451856523270460475261388207556502607139601003020449309237919, 21821919974158146377302460717249277868777336283585252485291773639499852536726, false⟩
  rw [runBits_add, h3]
  show runBits 34426434033919594451155107781188821651316167215306631574996226621102155684838 31029842492115040904895560451863089656472772604678260265531221036453811406496 63 64 ⟨17824407755896155255113538221893472990605107608470870642704627346266382547309, 23756920053217792374120378129133148502644943199552411347733864482603137707131, 49130123764382167743220836264600870102537720078759858400019248136917928464600, 46025329189036459001098699476388870940669097092882359212475783546158667222756, true⟩ = ⟨50889103918139275901740563842325826006903861766833838848191971035298925030287, 8498273768977287305779341002625321477622575626669583626372172661860066974349, 11046037934770244451856523270460475261388207556502607139601003020449309237919, 21821919974158146377302460717249277868777336283585252485291773639499852536726, false⟩
  exact h4

theorem evalLadderUK_eq : pointMult 34426434033919594451155107781188821651316167215306631574996226621102155684838 31029842492115040904895560451863089656472772604678260265531221036453811406496 = ⟨50889103918139275901740563842325826006903861766833838848191971035298925030287, 8498273768977287305779341002625321477622575626669583626372172661860066974349⟩ := by
  rw [pointMult_eval 34426434033919594451155107781188821651316167215306631574996226621102155684838 31029842492115040904895560451863089656472772604678260265531221036453811406496 _ evalLadderUK_aux]
  decide

theorem evalLadderW2_aux : pointMultAux 28948022309329048855892746252171976963317496166410141009864396001978282409976 2 255 (ladderInit 28948022309329048855892746252171976963317496166410141009864396001978282409976) = ⟨215434401820525962735619788398724197323839907650465064550400, 603902612927912163166625997914350728309746565831113502250751754240, 38154457456752820016329322394320683267193743895744537310451666968269268989650, 15294809561713220713490066467681479663257767330141168019764939085849476663102, false⟩ := by
  have h1 : runBits 28948022309329048855892746252171976963317496166410141009864396001978282409976 2 255 64 ⟨1, 0, 28948022309329048855892746252171976963317496166410141009864396001978282409976, 1, false⟩ = ⟨1, 0, 19106749156209053223158529422262806182887033490335757052282388194734385012230, 32036514310358734719367517116289855430803019771163932041431189464475111614803, false⟩ := by decide
  have h2 : runBits 28948022309329048855892746252171976963317496166410141009864396001978282409976 2 191 64 ⟨1, 0, 19106749156209053223158529422262806182887033490335757052282388194734385012230, 32036514310358734719367517116289855430803019771163932041431189464475111614803, false⟩ = ⟨1, 0, 2501511084419124722315244249375108726666072008116562607367279501398701907949, 20966355595832115718805327001031390459989045449684469078154450335584656211949, false⟩ := by decide
  have h3 : runBits 28948022309329048855892746252171976963317496166410141009864396001978282409976 2 127 64 ⟨1, 0, 2501511084419124722315244249375108726666072008116562607367279501398701907949, 20966355595832115718805327001031390459989045449684469078154450335584656211949, false⟩ = ⟨1, 0, 16998755423657433987790923610962361510215584713426490584145779795944801255127, 30631185155324321895789113242089558982355387253224421062673450531948722443401, false⟩ := by decide
  have h4 : runBits 28948022309329048855892746252171976963317496166410141009864396001978282409976 2 63 64 ⟨1, 0, 16998755423657433987790923610962361510215584713426490584145779795944801255127, 30631185155324321895789113242089558982355387253224421062673450531948722443401, false⟩ = ⟨215434401820525962735619788398724197323839907650465064550400, 603902612927912163166625997914350728309746565831113502250751754240, 38154457456752820016329322394320683267193743895744537310451666968269268989650, 15294809561713220713490066467681479663257767330141168019764939085849476663102, false⟩ := by decide
  rw [pointMultAux_eq_runBits]
  show runBits 28948022309329048855892746252171976963317496166410141009864396001978282409976 2 255 (64 + 192) ⟨1, 0, 28948022309329048855892746252171976963317496166410141009864396001978282409976, 1, false⟩ = ⟨215434401820525962735619788398724197323839907650465064550400, 603902612927912163166625997914350728309746565831113502250751754240, 38154457456752820016329322394320683267193743895744537310451666968269268989650, 15294809561713220713490066467681479663257767330141168019764939085849476663102, false⟩
  rw [runBits_add, h1]
  show runBits 28948022309329048855892746252171976963317496166410141009864396001978282409976 2 191 (64 + 128) ⟨1, 0, 19106749156209053223158529422262806182887033490335757052282388194734385012230, 32036514310358734719367517116289855430803019771163932041431189464475111614803, false⟩ = ⟨215434401820525962735619788398724197323839907650465064550400, 603902612927912163166625997914350728309746565831113502250751754240, 38154457456752820016329322394320683267193743895744537310451666968269268989650, 15294809561713220713490066467681479663257767330141168019764939085849476663102, false⟩
  rw [runBits_add, h2]
  show runBits 28948022309329048855892746252171976963317496166410141009864396001978282409976 2 127 (64 + 64) ⟨1, 0, 2501511084419124722315244249375108726666072008116562607367279501398701907949, 20966355595832115718805327001031390459989045449684469078154450335584656211949, false⟩ = ⟨215434401820525962735619788398724197323839907650465064550400, 603902612927912163166625997914350728309746565831113502250751754240, 38154457456752820016329322394320683267193743895744537310451666968269268989650, 15294809561713220713490066467681479663257767330141168019764939085849476663102, false⟩
  rw [runBits_add, h3]
  show runBits 28948022309329048855892746252171976963317496166410141009864396001978282409976 2 63 64 ⟨1, 0, 16998755423657433987790923610962361510215584713426490584145779795944801255127, 30631185155324321895789113242089558982355387253224421062673450531948722443401, false⟩ = ⟨215434401820525962735619788398724197323839907650465064550400, 603902612927912163166625997914350728309746565831113502250751754240, 38154457456752820016329322394320683267193743895744537310451666968269268989650, 15294809561713220713490066467681479663257767330141168019764939085849476663102, false⟩
  exact h4

theorem evalLadderW2_eq : pointMult 28948022309329048855892746252171976963317496166410141009864396001978282409976 2 = ⟨215434401820525962735619788398724197323839907650465064550400, 603902612927912163166625997914350728309746565831113502250751754240⟩ := by
  rw [pointMult_eval 28948022309329048855892746252171976963317496166410141009864396001978282409976 2 _ evalLadderW2_aux]
  decide

end Curve
namespace Curve

/-- C5: for every valid ratio point `(x, z)` with `z` not congruent to 0 mod p
whose doubled point is not at infinity, the affine recovery of
`pointDouble x z` equals the affine recovery of `pointMult (X x z) 2`:
doubling via the dedicated formula and via the 2-scalar ladder agree. -/
theorem C5_doubling_consistency (x z : Int)
    (hz : z % (field.p : Int) ≠ 0)
    (hdz : (pointDouble x z).z % (field.p : Int) ≠ 0)
    (w : Int) (hw : X x z = some w) :
    X (pointDouble x z).x (pointDouble x z).z =
      X (pointMult w 2).x (pointMult w 2).z := by
  haveI : Fact (Nat.Prime field.p) := ⟨prime_fieldP⟩
  obtain ⟨w', hw', hw'0, hw'1, hwc⟩ := X_spec x z hz
  rw [hw'] at hw
  have hww : w' = w := Option.some.inj hw
  subst hww
  have hzc : (z : ZMod field.p) ≠ 0 := intCast_ne_zero_of_emod z hz
  have hpd := pointDouble_cast x z
  have hpdz : (((pointDouble x z).z : Int) : ZMod field.p) =
      (z : ZMod field.p) ^ 4 * (4 * (w' : ZMod field.p) *
        ((w' : ZMod field.p) ^ 2 + 486662 * (w' : ZMod field.p) + 1)) := by
    rw [hpd.2, ← hwc]; ring
  have hpdx : (((pointDouble x z).x : Int) : ZMod field.p) =
      (z : ZMod field.p) ^ 4 * ((w' : ZMod field.p) ^ 2 - 1) ^ 2 := by
    rw [hpd.1, ← hwc]; ring
  have hPDZne : (((pointDouble x z).z : Int) : ZMod field.p) ≠ 0 :=
    intCast_ne_zero_of_emod _ hdz
  have hG : 4 * (w' : ZMod field.p) *
      ((w' : ZMod field.p) ^ 2 + 486662 * (w' : ZMod field.p) + 1) ≠ 0 := by
    intro h
    apply hPDZne
    rw [hpdz, h, mul_zero]
  have hu : (w' : ZMod field.p) ≠ 0 := by
    intro h
    apply hG
    rw [h]; ring
  obtain ⟨a1, b1, hchain, hI⟩ :=
    zeroChainGen w' 2
      (fun a b => (a : ZMod field.p) = (w' : ZMod field.p) * (b : ZMod field.p) ∧
        (b : ZMod field.p) ≠ 0)
      (by
        rintro a b a' b' ⟨hab, hbne⟩ ha' hb'
        refine ⟨by rw [ha', hab, hb']; ring, ?_⟩
        rw [hb']
        exact mul_ne_zero (mul_ne_zero four_ne_zero_zmod hu)
          (pow_ne_zero _ hbne))
      255 1 (by omega)
      (by
        intro j hj _
        refine bit_high_zero 2 j ?_
        have h4 : (2 : Nat) ^ 2 ≤ 2 ^ j := Nat.pow_le_pow_right (by omega) (by omega)
        omega)
      w' 1 ⟨by rw [Int.cast_one, mul_one], one_ne_zero_zmod⟩
  obtain ⟨hIa, hIb⟩ := hI
  obtain ⟨c2, d2, a2, b2, hiter1, hc2, hd2, ha2, hb2⟩ :=
    ladderIter_bit1_state w' 2 1 (by decide) a1 b1
  obtain ⟨x2, z2, x3, z3, hiter0, hx2, hz2⟩ :=
    ladderIter_bit0_swapped w' 2 0 (by decide) c2 d2 a2 b2
  have hfin : pointMultAux w' 2 255 (ladderInit w') = ⟨x2, z2, x3, z3, false⟩ := by
    have hinit : ladderInit w' = ⟨1, 0, w', 1, false⟩ := rfl
    rw [hinit, hchain]
    have h1 : pointMultAux w' 2 1 ⟨1, 0, a1, b1, false⟩ =
        pointMultAux w' 2 0 (ladderIter w' 2 1 ⟨1, 0, a1, b1, false⟩) := rfl
    rw [h1, hiter1]
    show ladderIter w' 2 0 ⟨c2, d2, a2, b2, true⟩ = _
    exact hiter0
  have hres : pointMult w' 2 = ⟨x2, z2⟩ := by
    rw [pointMult_eval w' 2 _ hfin]
    simp [cswap]
  have hb2ne : (b2 : ZMod field.p) ≠ 0 := by
    rw [hb2]
    exact mul_ne_zero (mul_ne_zero four_ne_zero_zmod hu) (pow_ne_zero _ hIb)
  have ha2b2 : (a2 : ZMod field.p) =
      (w' : ZMod field.p) * (b2 : ZMod field.p) := by
    rw [ha2, hb2, hIa]; ring
  have hz2c : (z2 : ZMod field.p) = (b2 : ZMod field.p) ^ 4 *
      (4 * (w' : ZMod field.p) *
        ((w' : ZMod field.p) ^ 2 + 486662 * (w' : ZMod field.p) + 1)) := by
    rw [hz2, ha2b2]; ring
  have hx2c : (x2 : ZMod field.p) = (b2 : ZMod field.p) ^ 4 *
      ((w' : ZMod field.p) ^ 2 - 1) ^ 2 := by
    rw [hx2, ha2b2]; ring
  have hz2ne : (z2 : ZMod field.p) ≠ 0 := by
    rw [hz2c]
    exact mul_ne_zero (pow_ne_zero _ hb2ne) hG
  have hz2mod : z2 % (field.p : Int) ≠ 0 := emod_ne_zero_of_intCast _ hz2ne
  obtain ⟨wL, hwL, hwL0, hwL1, hwLc⟩ :=
    X_spec (pointDouble x z).x (pointDouble x z).z hdz
  obtain ⟨wR, hwR, hwR0, hwR1, hwRc⟩ := X_spec x2 z2 hz2mod
  have hzc4 : (z : ZMod field.p) ^ 4 ≠ 0 := pow_ne_zero _ hzc
  have hb24 : (b2 : ZMod field.p) ^ 4 ≠ 0 := pow_ne_zero _ hb2ne
  have hwLc' : (wL : ZMod field.p) * ((z : ZMod field.p) ^ 4 *
      (4 * (w' : ZMod field.p) *
        ((w' : ZMod field.p) ^ 2 + 486662 * (w' : ZMod field.p) + 1))) =
      (z : ZMod field.p) ^ 4 * ((w' : ZMod field.p) ^ 2 - 1) ^ 2 := by
    rw [← hpdz, ← hpdx]
    exact hwLc
  have hLval : (wL : ZMod field.p) *
      (4 * (w' : ZMod field.p) *
        ((w' : ZMod field.p) ^ 2 + 486662 * (w' : ZMod field.p) + 1)) =
      ((w' : ZMod field.p) ^ 2 - 1) ^ 2 := by
    apply mul_left_cancel₀ hzc4
    linear_combination hwLc'
  have hwRc' : (wR : ZMod field.p) * ((b2 : ZMod field.p) ^ 4 *
      (4 * (w' : ZMod field.p) *
        ((w' : ZMod field.p) ^ 2 + 486662 * (w' : ZMod field.p) + 1))) =
      (b2 : ZMod field.p) ^ 4 * ((w' : ZMod field.p) ^ 2 - 1) ^ 2 := by
    rw [← hz2c, ← hx2c]
    exact hwRc
  have hRval : (wR : ZMod field.p) *
      (4 * (w' : ZMod field.p) *
        ((w' : ZMod field.p) ^ 2 + 486662 * (w' : ZMod field.p) + 1)) =
      ((w' : ZMod field.p) ^ 2 - 1) ^ 2 := by
    apply mul_left_cancel₀ hb24
    linear_combination hwRc'
  have hLR : (wL : ZMod field.p) = (wR : ZMod field.p) :=
    mul_right_cancel₀ hG (hLval.trans hRval.symm)
  have hLReq : wL = wR := intCast_inj_of_range wL wR hwL0 hwL1 hwR0 hwR1 hLR
  rw [hres]
  show X (pointDouble x z).x (pointDouble x z).z = X x2 z2
  rw [hwL, hwR, hLReq]

end Curve

namespace Curve

theorem bit_eq_mod (n t : Nat) (ht : t < 256) :
    ((n % 2 ^ 256) >>> t) &&& 1 = (n >>> t) &&& 1 := by
  rw [Nat.shiftRight_eq_div_pow, Nat.shiftRight_eq_div_pow,
    Nat.and_one_is_mod, Nat.and_one_is_mod]
  have hsplit : (2 : Nat) ^ 256 = 2 ^ t * 2 ^ (256 - t) := by
    rw [← pow_add]
    congr 1
    omega
  rw [hsplit, Nat.mod_mul_right_div_self]
  exact Nat.mod_mod_of_dvd _ (dvd_pow_self 2 (by omega))

theorem ladderIter_mod (x1 : Int) (n t : Nat) (ht : t < 256) (s : LadderState) :
    ladderIter x1 (n % 2 ^ 256) t s = ladderIter x1 n t s := by
  simp only [ladderIter, bit_eq_mod n t ht]

theorem pointMultAux_mod (x1 : Int) (n : Nat) :
    ∀ t, t < 256 → ∀ s : LadderState,
      pointMultAux x1 (n % 2 ^ 256) t s = pointMultAux x1 n t s := by
  intro t
  induction t with
  | zero =>
    intro ht s
    show ladderIter x1 (n % 2 ^ 256) 0 s = ladderIter x1 n 0 s
    exact ladderIter_mod x1 n 0 (by omega) s
  | succ t ih =>
    intro ht s
    show pointMultAux x1 (n % 2 ^ 256) t
        (ladderIter x1 (n % 2 ^ 256) (t + 1) s) = _
    rw [ladderIter_mod x1 n (t + 1) ht, ih (by omega)]
    rfl

/-- C9: `pointMult` depends only on the low 256 bits of the scalar: for every
X-coordinate and every non-negative scalar `n`, `pointMult X0 n` equals
`pointMult X0 (n % 2 ^ 256)`; bits at index 256 and above are ignored. -/
theorem C9_scalar_mod_2pow256 (X0 : Int) (n : Nat) :
    pointMult X0 n = pointMult X0 (n % 2 ^ 256) := by
  simp only [pointMult]
  rw [pointMultAux_mod X0 n 255 (by omega)]

theorem ladderIter_range (x1 : Int) (n t : Nat) (s : LadderState) :
    (0 ≤ (ladderIter x1 n t s).x_2 ∧ (ladderIter x1 n t s).x_2 < (field.p : Int)) ∧
    (0 ≤ (ladderIter x1 n t s).z_2 ∧ (ladderIter x1 n t s).z_2 < (field.p : Int)) ∧
    (0 ≤ (ladderIter x1 n t s).x_3 ∧ (ladderIter x1 n t s).x_3 < (field.p : Int)) ∧
    (0 ≤ (ladderIter x1 n t s).z_3 ∧ (ladderIter x1 n t s).z_3 < (field.p : Int)) :=
  ⟨⟨reduce_nonneg _, reduce_lt _⟩, ⟨reduce_nonneg _, reduce_lt _⟩,
   ⟨reduce_nonneg _, reduce_lt _⟩, ⟨reduce_nonneg _, reduce_lt _⟩⟩

theorem pointMultAux_tail (x1 : Int) (n : Nat) :
    ∀ (t : Nat) (s : LadderState), ∃ s' : LadderState,
      pointMultAux x1 n t s = ladderIter x1 n 0 s' := by
  intro t
  induction t with
  | zero => intro s; exact ⟨s, rfl⟩
  | succ t ih => intro s; exact ih (ladderIter x1 n (t + 1) s)

/-- C10: with `reduce` mapping every integer into the canonical range
`[0, p)`, both components of the ratio pair returned by each of
`pointDouble`, `pointAdd1` and `pointMult` lie in `[0, p)` for every
input. -/
theorem C10_canonical_outputs :
    (∀ x z : Int,
      (0 ≤ (pointDouble x z).x ∧ (pointDouble x z).x < (field.p : Int)) ∧
      (0 ≤ (pointDouble x z).z ∧ (pointDouble x z).z < (field.p : Int))) ∧
    (∀ x z prevX prevZ : Int,
      (0 ≤ (pointAdd1 x z prevX prevZ).x ∧
        (pointAdd1 x z prevX prevZ).x < (field.p : Int)) ∧
      (0 ≤ (pointAdd1 x z prevX prevZ).z ∧
        (pointAdd1 x z prevX prevZ).z < (field.p : Int))) ∧
    (∀ (X0 : Int) (n : Nat),
      (0 ≤ (pointMult X0 n).x ∧ (pointMult X0 n).x < (field.p : Int)) ∧
      (0 ≤ (pointMult X0 n).z ∧ (pointMult X0 n).z < (field.p : Int))) := by
  refine ⟨?_, ?_, ?_⟩
  · intro x z
    exact ⟨⟨reduce_nonneg _, reduce_lt _⟩, ⟨reduce_nonneg _, reduce_lt _⟩⟩
  · intro x z prevX prevZ
    exact ⟨⟨reduce_nonneg _, reduce_lt _⟩, ⟨reduce_nonneg _, reduce_lt _⟩⟩
  · intro X0 n
    obtain ⟨s', hs'⟩ := pointMultAux_tail X0 n 255 (ladderInit X0)
    obtain ⟨hx2, hz2, hx3, hz3⟩ := ladderIter_range X0 n 0 s'
    rw [pointMult_eval X0 n _ hs']
    cases hsw : (ladderIter X0 n 0 s').swap
    · simp only [cswap, hsw, Bool.false_eq_true, if_false]
      exact ⟨hx2, hz2⟩
    · simp only [cswap, hsw, if_true]
      exact ⟨hx3, hz3⟩

/-- C8: for every affine X-coordinate input, `pointMult X0 0` returns exactly
the ratio pair `(1, 0)`, the representation of the point at infinity seeding
the even accumulator. -/
theorem C8_pointMult_zero_scalar (X0 : Int) : pointMult X0 0 = ⟨1, 0⟩ := by
  obtain ⟨a1, b1, hchain, -⟩ :=
    zeroChainGen X0 0 (fun _ _ => True) (fun _ _ _ _ _ _ _ => trivial)
      255 0 (by omega)
      (fun j hj _ => bit_high_zero 0 j (Nat.pos_pow_of_pos j (by omega)))
      X0 1 trivial
  obtain ⟨a2, b2, hiter, -, -⟩ := ladderIter_bit0_state X0 0 0 (by decide) a1 b1
  have hfin : pointMultAux X0 0 255 (ladderInit X0) = ⟨1, 0, a2, b2, false⟩ := by
    have hinit : ladderInit X0 = ⟨1, 0, X0, 1, false⟩ := rfl
    rw [hinit, hchain]
    show ladderIter X0 0 0 ⟨1, 0, a1, b1, false⟩ = _
    exact hiter
  rw [pointMult_eval X0 0 _ hfin]
  rfl

theorem pointMultAuxCount_snd (x1 : Int) (n : Nat) :
    ∀ (t : Nat) (sc : LadderState × Nat),
      (pointMultAuxCount x1 n t sc).2 = sc.2 + t + 1 := by
  intro t
  induction t with
  | zero => intro sc; rfl
  | succ t ih =>
    intro sc
    have h1 : pointMultAuxCount x1 n (t + 1) sc =
        pointMultAuxCount x1 n t
          (ladderIter x1 n (t + 1) sc.1, sc.2 + 1) := rfl
    rw [h1, ih]
    omega

theorem pointMultAuxCount_fst (x1 : Int) (n : Nat) :
    ∀ (t : Nat) (s : LadderState) (c : Nat),
      (pointMultAuxCount x1 n t (s, c)).1 = pointMultAux x1 n t s := by
  intro t
  induction t with
  | zero => intro s c; rfl
  | succ t ih =>
    intro s c
    exact ih (ladderIter x1 n (t + 1) s) (c + 1)

/-- C3 (amended): the ladder loop of `pointMult` executes exactly 256
combined-step iterations for every scalar, processing bit indices 255 down
to 0, most significant first; the count is independent of the scalar. -/
theorem C3_iteration_count :
    (∀ (X0 : Int) (n : Nat), pointMultIterCount X0 n = 256) ∧
    (∀ (x1 : Int) (n t : Nat) (s : LadderState),
      pointMultAux x1 n (t + 1) s =
        pointMultAux x1 n t (ladderIter x1 n (t + 1) s)) ∧
    (∀ (x1 : Int) (n : Nat) (s : LadderState),
      pointMultAux x1 n 0 s = ladderIter x1 n 0 s) ∧
    (∀ (X0 : Int) (n : Nat),
      (pointMultAuxCount X0 n 255 (ladderInit X0, 0)).1 =
        pointMultAux X0 n 255 (ladderInit X0)) := by
  refine ⟨?_, fun _ _ _ _ => rfl, fun _ _ _ => rfl, ?_⟩
  · intro X0 n
    show (pointMultAuxCount X0 n 255 (ladderInit X0, 0)).2 = 256
    rw [pointMultAuxCount_snd]
  · intro X0 n
    exact pointMultAuxCount_fst X0 n 255 (ladderInit X0) 0

/-- C3 (counterexample): the ladder loop runs 256 combined-step iterations,
not 255, already for base point 9 and scalar 1. -/
theorem C3_counterexample : pointMultIterCount 9 1 ≠ 255 := by
  have h : pointMultIterCount 9 1 = 256 := by
    show (pointMultAuxCount 9 1 255 (ladderInit 9, 0)).2 = 256
    rw [pointMultAuxCount_snd]
  omega

/-- C4 (counterexample): doubling the point at infinity `(1, 0)` yields
`(1, 0)`, not the pair `(0, 0)` the claim states. -/
theorem C4_counterexample : pointDouble 1 0 ≠ ⟨0, 0⟩ := by decide

/-- C4 (amended): for every field element `x`, doubling `(x, 0)` returns the
degenerate-but-defined ratio pair with `z' = 0` (still the point at
infinity) and `x' = x^4 mod p`, rather than an error. -/
theorem C4_double_infinity (x : Int) :
    (pointDouble x 0).z = 0 ∧ (pointDouble x 0).x = field.reduce (x ^ 4) := by
  constructor
  · show field.reduce (field.reduce (4 * x * 0) *
      (field.reduce (x - 0) * field.reduce (x - 0) +
        doubleA24 * field.reduce (4 * x * 0))) = 0
    rw [show (4 : Int) * x * 0 = 0 from by ring]
    rw [show field.reduce 0 = 0 from by decide]
    rw [zero_mul]
    decide
  · show field.reduce (field.reduce ((x + 0) * (x + 0) *
      ((x - 0) * (x - 0)))) = field.reduce (x ^ 4)
    rw [reduce_reduce]
    congr 1
    ring

/-- C6: affine recovery on any ratio whose `z` reduces to 0 mod p signals the
degenerate-ratio error (the inversion failure) and never returns a numeric
field element. -/
theorem C6_degenerate_rejected (x z : Int)
    (hz : z % (field.p : Int) = 0) : X x z = none :=
  X_none x z hz

theorem C6_witness :
    ((0 : Int) % (field.p : Int) = 0) ∧ X 5 0 = none :=
  ⟨by decide, C6_degenerate_rejected 5 0 (by decide)⟩

/-- C7: each ladder iteration XOR-accumulates the swap flag with bit `k_t`,
applies the conditional swap with that running value, resets the flag to
`k_t`, and the combined step uses `multA24 = (A - 2)/4`, distinct from the
`(A + 2)/4` constant of `pointDouble`; after the loop a final conditional
swap on the last swap value precedes returning `(x_2, z_2)`. -/
theorem C7_ladder_structure :
    (∀ (x1 : Int) (n t : Nat) (s : LadderState),
      ladderIter x1 n t s =
        (fun sw : Bool =>
          (fun r : Int × Int × Int × Int =>
            ({ x_2 := r.1, z_2 := r.2.1, x_3 := r.2.2.1, z_3 := r.2.2.2,
               swap := ((n >>> t) &&& 1) != 0 } : LadderState))
            (ladderStep x1 (cswap sw s.x_2 s.x_3).1 (cswap sw s.z_2 s.z_3).1
              (cswap sw s.x_2 s.x_3).2 (cswap sw s.z_2 s.z_3).2))
          (Bool.xor s.swap (((n >>> t) &&& 1) != 0))) ∧
    multA24 = (curveA - 2) / 4 ∧
    doubleA24 = (curveA + 2) / 4 ∧
    multA24 ≠ doubleA24 ∧
    (∀ x_1 x_2 z_2 x_3 z_3 : Int,
      (ladderStep x_1 x_2 z_2 x_3 z_3).2.1 =
        field.reduce (((x_2 + z_2) * (x_2 + z_2) - (x_2 - z_2) * (x_2 - z_2)) *
          ((x_2 + z_2) * (x_2 + z_2) +
            multA24 * ((x_2 + z_2) * (x_2 + z_2) -
              (x_2 - z_2) * (x_2 - z_2))))) ∧
    (∀ x z : Int,
      (pointDouble x z).z =
        field.reduce (field.reduce (4 * x * z) *
          (field.reduce (x - z) * field.reduce (x - z) +
            doubleA24 * field.reduce (4 * x * z)))) ∧
    (∀ (X0 : Int) (n : Nat),
      pointMult X0 n =
        { x := (cswap (pointMultAux X0 n 255 (ladderInit X0)).swap
            (pointMultAux X0 n 255 (ladderInit X0)).x_2
            (pointMultAux X0 n 255 (ladderInit X0)).x_3).1,
          z := (cswap (pointMultAux X0 n 255 (ladderInit X0)).swap
            (pointMultAux X0 n 255 (ladderInit X0)).z_2
            (pointMultAux X0 n 255 (ladderInit X0)).z_3).1 }) :=
  ⟨fun _ _ _ _ => rfl, rfl, rfl, by decide, fun _ _ _ _ _ => rfl,
   fun _ _ => rfl, fun _ _ => rfl⟩

end Curve

namespace Curve

/-- C1 (counterexample): with base point 9 and the scalar literal
`0xa546e36bf0527c9d3b16154b82465edd62144c0ac1fc5a18506a2244ba449ac` the
recovered result of `pointMult` is not the field element
`0xc3da55379de9c6908e94ea4df28d084f32eccf03491c71f754b4075577a2851`
stated by the claim. -/
theorem C1_counterexample :
    X (pointMult 9 4672304307326083682432349001036689820303857967815654425008157265135933868460).x (pointMult 9 4672304307326083682432349001036689820303857967815654425008157265135933868460).z ≠ some 5536672892607836057588339725548909692521767523998340067119896586896700745809 := by
  rw [evalLadder9K_eq]
  show X 17980815445801654560365419028253588120193932686991223651024104106391664027076 9741104444401164300071298372822346822385336616294195133832286089939486048736 ≠ some 5536672892607836057588339725548909692521767523998340067119896586896700745809
  rw [X_eval 17980815445801654560365419028253588120193932686991223651024104106391664027076 9741104444401164300071298372822346822385336616294195133832286089939486048736 50275525142368873977684713127486412556116128617846364219400815478705147684967 13669927088080310460517489085230743967514250820638158711475935040377744379766 (by decide) (by decide) (by decide)
    (by decide) (by decide)]
  decide

/-- C1 (amended): for the RFC7748 X25519 test vector decoded as the RFC
prescribes (little-endian, scalar clamped), scalar multiplication of the
input u-coordinate 34426434033919594451155107781188821651316167215306631574996226621102155684838 by the clamped scalar
31029842492115040904895560451863089656472772604678260265531221036453811406496 via `pointMult`, followed by affine
recovery, yields the test vector's output u-coordinate
37325765543539916631701301279660700968428932651319597985674090122993663859395. -/
theorem C1_rfc_test_vector :
    X (pointMult 34426434033919594451155107781188821651316167215306631574996226621102155684838 31029842492115040904895560451863089656472772604678260265531221036453811406496).x
      (pointMult 34426434033919594451155107781188821651316167215306631574996226621102155684838 31029842492115040904895560451863089656472772604678260265531221036453811406496).z = some 37325765543539916631701301279660700968428932651319597985674090122993663859395 := by
  rw [evalLadderUK_eq]
  show X 50889103918139275901740563842325826006903861766833838848191971035298925030287 8498273768977287305779341002625321477622575626669583626372172661860066974349 = some 37325765543539916631701301279660700968428932651319597985674090122993663859395
  exact X_eval 50889103918139275901740563842325826006903861766833838848191971035298925030287 8498273768977287305779341002625321477622575626669583626372172661860066974349 26297713648550507081302580623115134371878450449872837345599146424347550672244 37325765543539916631701301279660700968428932651319597985674090122993663859395 (by decide) (by decide) (by decide)
    (by decide) (by decide)

theorem C2_witness :
    ((pointMult 9 1).z % (field.p : Int) ≠ 0) ∧
    X (pointMult 9 1).x (pointMult 9 1).z = some 9 := by
  have hz : (pointMult 9 1).z % (field.p : Int) ≠ 0 := by
    rw [evalLadder91_eq]
    decide
  exact ⟨hz, C2_pointMult_one_identity 9 (by decide) (by decide) hz⟩

theorem C5_witness :
    ((2 : Int) % (field.p : Int) ≠ 0) ∧
    ((pointDouble 3 2).z % (field.p : Int) ≠ 0) ∧
    X 3 2 = some 28948022309329048855892746252171976963317496166410141009864396001978282409976 ∧
    X (pointDouble 3 2).x (pointDouble 3 2).z =
      X (pointMult 28948022309329048855892746252171976963317496166410141009864396001978282409976 2).x (pointMult 28948022309329048855892746252171976963317496166410141009864396001978282409976 2).z := by
  have h1 : (2 : Int) % (field.p : Int) ≠ 0 := by decide
  have h2 : (pointDouble 3 2).z % (field.p : Int) ≠ 0 := by decide
  have h3 : X 3 2 = some 28948022309329048855892746252171976963317496166410141009864396001978282409976 :=
    X_eval 3 2 28948022309329048855892746252171976963317496166410141009864396001978282409975 28948022309329048855892746252171976963317496166410141009864396001978282409976 (by decide) (by decide) (by decide) (by decide)
      (by decide)
  exact ⟨h1, h2, h3, C5_doubling_consistency 3 2 h1 h2 28948022309329048855892746252171976963317496166410141009864396001978282409976 h3⟩

end Curve
